import Mathlib

/-!
Shallow embedding of the mizme-chat server (two revisions: `src/server.js`
and `src/unnamed/part_000`, the latter keeping all state in a single
`state` object with per-room `userCount` counters and a join acknowledgment
callback).

JavaScript plain objects used as string-keyed dictionaries are embedded as
association lists that preserve insertion order: assigning to an existing
key updates it in place, assigning a fresh key appends, and `delete`
removes the key.  `Object.keys`/`Object.values` read the list in order,
matching JS enumeration order for string keys.

A room's `users` object maps socket ids to the very session object stored
in the top-level `users` registry (the same reference), so the embedding
stores only the member ids in the room and resolves sessions through the
registry; this is observationally identical to the aliasing in the source.

Wall-clock timestamps (`new Date()`) are external input and are omitted
from the emitted-event payloads; no claim concerns them.

Socket.IO transport rooms (`socket.join`, `io.to`, `socket.to`) are
embedded explicitly: `groups` records which transport broadcast groups a
connection has joined (the source never calls `socket.leave`), and an
emitted event carries its target (a whole group, a group minus the sender,
or a single connection).
-/

namespace Mizme

abbrev ConnId := String

/-- `obj[key]` on a JS dictionary. -/
def jget {α : Type} : List (String × α) → String → Option α
  | [], _ => none
  | (k, v) :: rest, key => if k = key then some v else jget rest key

/-- `obj[key] = val` on a JS dictionary: update in place if the key exists,
append otherwise (JS string keys keep insertion order). -/
def jset {α : Type} : List (String × α) → String → α → List (String × α)
  | [], key, val => [(key, val)]
  | (k, v) :: rest, key, val =>
      if k = key then (k, val) :: rest else (k, v) :: jset rest key val

/-- `delete obj[key]` on a JS dictionary. -/
def jdel {α : Type} : List (String × α) → String → List (String × α)
  | [], _ => []
  | (k, v) :: rest, key =>
      if k = key then jdel rest key else (k, v) :: jdel rest key

/-- `Object.values(obj)`. -/
def jvalues {α : Type} (l : List (String × α)) : List α := l.map Prod.snd

/-- `Object.keys(obj)`. -/
def jkeys {α : Type} (l : List (String × α)) : List String := l.map Prod.fst

@[simp] theorem jget_nil {α : Type} (k : String) : jget ([] : List (String × α)) k = none := rfl

theorem jget_cons {α : Type} (k key : String) (v : α) (rest : List (String × α)) :
    jget ((k, v) :: rest) key = if k = key then some v else jget rest key := rfl

@[simp] theorem jget_jset_self {α : Type} (l : List (String × α)) (k : String) (v : α) :
    jget (jset l k v) k = some v := by
  induction l with
  | nil => simp [jset, jget]
  | cons hd tl ih =>
      obtain ⟨k', v'⟩ := hd
      by_cases h : k' = k <;> simp [jset, jget, h, ih]

@[simp] theorem jget_jset_ne {α : Type} (l : List (String × α)) (k k' : String) (v : α)
    (h : k ≠ k') : jget (jset l k v) k' = jget l k' := by
  induction l with
  | nil => simp [jset, jget, h]
  | cons hd tl ih =>
      obtain ⟨k₀, v₀⟩ := hd
      by_cases h₀ : k₀ = k
      · subst h₀; simp [jset, jget, h]
      · simp [jset, jget, h₀, ih]

@[simp] theorem jget_jdel_self {α : Type} (l : List (String × α)) (k : String) :
    jget (jdel l k) k = none := by
  induction l with
  | nil => simp [jdel]
  | cons hd tl ih =>
      obtain ⟨k₀, v₀⟩ := hd
      by_cases h₀ : k₀ = k <;> simp [jdel, jget, h₀, ih]

@[simp] theorem jget_jdel_ne {α : Type} (l : List (String × α)) (k k' : String) (h : k ≠ k') :
    jget (jdel l k) k' = jget l k' := by
  induction l with
  | nil => simp [jdel]
  | cons hd tl ih =>
      obtain ⟨k₀, v₀⟩ := hd
      by_cases h₀ : k₀ = k
      · subst h₀; simp [jdel, jget, h, ih]
      · by_cases h₁ : k₀ = k' <;> simp [jdel, jget, h₀, h₁, Ne.symm h, ih]

theorem jkeys_jset_of_mem {α : Type} (l : List (String × α)) (k : String) (v : α)
    (h : (jget l k).isSome) : jkeys (jset l k v) = jkeys l := by
  induction l with
  | nil => simp [jget] at h
  | cons hd tl ih =>
      obtain ⟨k₀, v₀⟩ := hd
      by_cases h₀ : k₀ = k
      · simp [jset, jkeys, h₀]
      · simp [jget, h₀] at h
        simp [jset, jkeys, h₀] at ih ⊢
        exact ih h

theorem jget_isSome_iff_mem_jkeys {α : Type} (l : List (String × α)) (k : String) :
    (jget l k).isSome ↔ k ∈ jkeys l := by
  induction l with
  | nil => simp [jget, jkeys]
  | cons hd tl ih =>
      obtain ⟨k₀, v₀⟩ := hd
      by_cases h₀ : k₀ = k
      · simp [jget, jkeys, h₀]
      · have h₁ : ¬ k = k₀ := fun e => h₀ e.symm
        simp [jget, jkeys, h₀, h₁] at ih ⊢
        exact ih

/-- Target of an emitted Socket.IO event: `io.to(room)`, `socket.to(room)`
(the room's transport group minus the sender), `io.to(socketId)` (the
auto-created per-connection group, delivered to exactly that connection),
or `socket.emit` (the handling connection itself). -/
inductive Target where
  | room (r : String)
  | roomExcept (r : String) (sender : ConnId)
  | conn (c : ConnId)
  | self (c : ConnId)
deriving Repr, DecidableEq

namespace Part000

/-- Entry of `state.users` in `src/unnamed/part_000` (the `joinedAt : Date`
field is wall-clock input and is omitted). -/
structure User where
  id : ConnId
  username : String
  room : String
  avatarColor : String
  status : String
deriving Repr, DecidableEq

/-- Entry of `state.voiceParticipants`. -/
structure VoiceParticipant where
  id : ConnId
  username : String
  room : String
  isMuted : Bool
  isDeafened : Bool
  avatarColor : String
deriving Repr, DecidableEq

/-- Entry of `state.videoParticipants`. -/
structure VideoParticipant where
  id : ConnId
  username : String
  room : String
  avatarColor : String
deriving Repr, DecidableEq

/-- One room of `state.rooms`: the membership object (kept as the list of
member socket ids, in insertion order; the values alias `state.users`) and
the `userCount` counter. -/
structure RoomState where
  users : List ConnId
  userCount : Nat
deriving Repr, DecidableEq

/-- Entry of the static `state.roomInfo` catalog. -/
structure RoomInfo where
  name : String
  description : String
  icon : String
deriving Repr, DecidableEq

/-- The `{...state.roomInfo[room], userCount}` object sent in the join ack. -/
structure RoomData where
  name : String
  description : String
  icon : String
  userCount : Nat
deriving Repr, DecidableEq

/-- An outbound Socket.IO event, with its target and payload (timestamps
omitted; WebRTC payloads are opaque strings). -/
inductive Emit where
  | message (tgt : Target) (user : String) (text : String) (isSystem : Bool)
      (isImage : Bool) (isAction : Bool)
  | updateUsers (tgt : Target) (users : List (String × String × String))
      (count : Nat) (room : String)
  | voiceUserJoined (tgt : Target) (p : VoiceParticipant)
  | voiceUserLeft (tgt : Target) (who : ConnId)
  | voiceChatUsers (tgt : Target) (ps : List VoiceParticipant)
  | videoUserJoined (tgt : Target) (p : VideoParticipant)
  | videoUserLeft (tgt : Target) (who : ConnId)
  | videoChatUsers (tgt : Target) (ps : List VideoParticipant)
  | voiceOffer (tgt : Target) (fromId : ConnId) (offer : String)
  | voiceAnswer (tgt : Target) (fromId : ConnId) (answer : String)
  | voiceIceCandidate (tgt : Target) (fromId : ConnId) (candidate : String)
  | videoOffer (tgt : Target) (fromId : ConnId) (offer : String)
  | videoAnswer (tgt : Target) (fromId : ConnId) (answer : String)
  | videoIceCandidate (tgt : Target) (fromId : ConnId) (candidate : String)
  | voiceStateChanged (tgt : Target) (userId : ConnId) (isMuted : Bool) (isDeafened : Bool)
  | userChangedUsername (tgt : Target) (oldUsername : String) (newUsername : String)
  | userStatusChanged (tgt : Target) (username : String) (status : String)
  | voiceUserUpdated (tgt : Target) (id : ConnId) (username : String)
  | videoUserUpdated (tgt : Target) (id : ConnId) (username : String)
  | typing (tgt : Target) (username : String) (room : String)
  | stopTyping (tgt : Target) (username : String)
deriving Repr, DecidableEq

/-- Result of the `join` acknowledgment callback. -/
inductive JoinAck where
  | ok (room : RoomData) (user : User)
  | fail (error : String)
deriving Repr, DecidableEq

/-- The mutable `state` object plus the transport-level broadcast groups
each connection has joined via `socket.join`. -/
structure ServerState where
  users : List (ConnId × User)
  rooms : List (String × RoomState)
  voiceParticipants : List (ConnId × VoiceParticipant)
  videoParticipants : List (ConnId × VideoParticipant)
  groups : List (ConnId × String)
deriving Repr, DecidableEq

/-- The static `state.roomInfo` catalog. -/
def roomInfo : List (String × RoomInfo) :=
  [("general", ⟨"General", "General discussions", "fa-hashtag"⟩),
   ("gaming", ⟨"Gaming", "All about games", "fa-gamepad"⟩),
   ("random", ⟨"Random", "Anything goes", "fa-random"⟩)]

/-- Initial `state`. -/
def initState : ServerState :=
  { users := []
    rooms := [("general", ⟨[], 0⟩), ("gaming", ⟨[], 0⟩), ("random", ⟨[], 0⟩)]
    voiceParticipants := []
    videoParticipants := []
    groups := [] }

/-- Adding a key to a room's `users` object (keys are socket ids; adding a
present id leaves the object unchanged up to the value alias). -/
def insertMember (l : List ConnId) (c : ConnId) : List ConnId :=
  if c ∈ l then l else l ++ [c]

/-- `socket.join(room)`: idempotent addition to a transport group. -/
def insertGroup (l : List (ConnId × String)) (p : ConnId × String) :
    List (ConnId × String) :=
  if p ∈ l then l else l ++ [p]

/-- The member ids of a room (empty if the room is not in `state.rooms`). -/
def roomMembers (s : ServerState) (roomId : String) : List ConnId :=
  match jget s.rooms roomId with
  | some r => r.users
  | none => []

/-- `updateRoomUserCount`: recompute the counter from the membership
object's key count (a no-op on a room id outside `state.rooms`, which the
source never passes). -/
def updateRoomUserCount (s : ServerState) (roomId : String) : ServerState :=
  match jget s.rooms roomId with
  | some r => { s with rooms := jset s.rooms roomId ({ r with userCount := r.users.length }) }
  | none => s

/-- The `{username, status, avatarColor}` projection used by
`broadcastUserList`. -/
def userListEntry (u : User) : String × String × String :=
  (u.username, u.status, u.avatarColor)

/-- `broadcastUserList(roomId)`: emit the resolved member list and the
stored counter to the room.  `Object.values` of the membership object is
the member-id list resolved through `state.users` (the values alias the
registry); an id the registry no longer holds resolves to nothing. -/
def broadcastUserList (s : ServerState) (roomId : String) : Emit :=
  .updateUsers (.room roomId)
    ((roomMembers s roomId).filterMap fun c => (jget s.users c).map userListEntry)
    (match jget s.rooms roomId with | some r => r.userCount | none => 0)
    roomId

/-- `cleanupUser(socketId)`: remove the user from its room (updating the
counter and re-broadcasting the list), drop its voice and video records
(announcing each to the record's room), then delete the session. -/
def cleanupUser (socketId : ConnId) (s : ServerState) : ServerState × List Emit :=
  match jget s.users socketId with
  | none => (s, [])
  | some user =>
    let (s, evRoom) :=
      match jget s.rooms user.room with
      | some r =>
          let r2 := { r with users := r.users.filter (· ≠ socketId) }
          let s := { s with rooms := jset s.rooms user.room r2 }
          let s := updateRoomUserCount s user.room
          (s, [broadcastUserList s user.room])
      | none => (s, [])
    let (s, evVoice) :=
      match jget s.voiceParticipants socketId with
      | some vp =>
          ({ s with voiceParticipants := jdel s.voiceParticipants socketId },
           [Emit.voiceUserLeft (.room vp.room) socketId])
      | none => (s, [])
    let (s, evVideo) :=
      match jget s.videoParticipants socketId with
      | some dp =>
          ({ s with videoParticipants := jdel s.videoParticipants socketId },
           [Emit.videoUserLeft (.room dp.room) socketId])
      | none => (s, [])
    ({ s with users := jdel s.users socketId }, evRoom ++ evVoice ++ evVideo)

/-- The `{...state.roomInfo[room], userCount: state.rooms[room].userCount}`
object for the join ack (`room` is validated before this is built). -/
def roomDataFor (s : ServerState) (room : String) : RoomData :=
  let info := (jget roomInfo room).getD ⟨room, "", ""⟩
  { name := info.name, description := info.description, icon := info.icon
    userCount := match jget s.rooms room with | some r => r.userCount | none => 0 }

/-- The `join` handler.  `!username || !room` is the JS falsy test on the
strings; an invalid payload throws, and the catch invokes the callback with
`{success:false, error}`.  On success the prior session (if any) is cleaned
up first, the new session is created, added to the room, `socket.join` is
called, and the room is notified. -/
def joinH (socketId username room avatarColor : String) (s : ServerState) :
    ServerState × List Emit × JoinAck :=
  if username = "" ∨ room = "" ∨ (jget s.rooms room).isNone then
    (s, [], .fail "Invalid join data")
  else
    let (s, evClean) := cleanupUser socketId s
    let user : User :=
      { id := socketId, username := username, room := room
        avatarColor := if avatarColor = "" then "#4361ee" else avatarColor
        status := "online" }
    let s := { s with users := jset s.users socketId user }
    let s :=
      match jget s.rooms room with
      | some r =>
          let r2 := { r with users := insertMember r.users socketId }
          { s with rooms := jset s.rooms room r2 }
      | none => s
    let s := updateRoomUserCount s room
    let s := { s with groups := insertGroup s.groups (socketId, room) }
    let evJoin := Emit.message (.room room) "System" (username ++ " has joined " ++ room)
      true false false
    let ack := JoinAck.ok (roomDataFor s room) user
    (s, evClean ++ [evJoin, broadcastUserList s room], ack)

/-- The `sendMessage` handler. -/
def sendMessageH (socketId message : String) (isImage isAction : Bool)
    (s : ServerState) : ServerState × List Emit :=
  match jget s.users socketId with
  | none => (s, [])
  | some user =>
      if message = "" then (s, [])
      else (s, [.message (.room user.room) user.username message false isImage isAction])

/-- The `joinVoiceChat` handler: requires a session, then creates or
overwrites the voice record, announces it to the (client-supplied) room and
answers the caller with the other participants whose record is scoped to
that room. -/
def joinVoiceChatH (socketId room : String) (s : ServerState) :
    ServerState × List Emit :=
  match jget s.users socketId with
  | none => (s, [])
  | some user =>
      let p : VoiceParticipant :=
        { id := socketId, username := user.username, room := room
          isMuted := false, isDeafened := false, avatarColor := user.avatarColor }
      let s := { s with voiceParticipants := jset s.voiceParticipants socketId p }
      let participants := (jvalues s.voiceParticipants).filter
        fun q => q.room == room && q.id != socketId
      (s, [.voiceUserJoined (.roomExcept room socketId) p,
           .voiceChatUsers (.self socketId) participants])

/-- The `leaveVoiceChat` handler. -/
def leaveVoiceChatH (socketId : String) (s : ServerState) : ServerState × List Emit :=
  match jget s.voiceParticipants socketId with
  | none => (s, [])
  | some vp =>
      ({ s with voiceParticipants := jdel s.voiceParticipants socketId },
       [.voiceUserLeft (.roomExcept vp.room socketId) socketId])

/-- The `voiceOffer` relay handler. -/
def voiceOfferH (socketId target offer : String) (s : ServerState) :
    ServerState × List Emit :=
  if (jget s.voiceParticipants target).isSome then
    (s, [.voiceOffer (.conn target) socketId offer])
  else (s, [])

/-- The `voiceAnswer` relay handler. -/
def voiceAnswerH (socketId target answer : String) (s : ServerState) :
    ServerState × List Emit :=
  if (jget s.voiceParticipants target).isSome then
    (s, [.voiceAnswer (.conn target) socketId answer])
  else (s, [])

/-- The `voiceIceCandidate` relay handler. -/
def voiceIceCandidateH (socketId target candidate : String) (s : ServerState) :
    ServerState × List Emit :=
  if (jget s.voiceParticipants target).isSome then
    (s, [.voiceIceCandidate (.conn target) socketId candidate])
  else (s, [])

/-- The `voiceStateChange` handler. -/
def voiceStateChangeH (socketId : String) (isMuted isDeafened : Bool)
    (s : ServerState) : ServerState × List Emit :=
  match jget s.voiceParticipants socketId with
  | none => (s, [])
  | some vp =>
      let vp2 := { vp with isMuted := isMuted, isDeafened := isDeafened }
      ({ s with voiceParticipants := jset s.voiceParticipants socketId vp2 },
       [.voiceStateChanged (.roomExcept vp2.room socketId) socketId isMuted isDeafened])

/-- The `joinVideoChat` handler (same shape as voice, without flags). -/
def joinVideoChatH (socketId room : String) (s : ServerState) :
    ServerState × List Emit :=
  match jget s.users socketId with
  | none => (s, [])
  | some user =>
      let p : VideoParticipant :=
        { id := socketId, username := user.username, room := room
          avatarColor := user.avatarColor }
      let s := { s with videoParticipants := jset s.videoParticipants socketId p }
      let participants := (jvalues s.videoParticipants).filter
        fun q => q.room == room && q.id != socketId
      (s, [.videoUserJoined (.roomExcept room socketId) p,
           .videoChatUsers (.self socketId) participants])

/-- The `leaveVideoChat` handler. -/
def leaveVideoChatH (socketId : String) (s : ServerState) : ServerState × List Emit :=
  match jget s.videoParticipants socketId with
  | none => (s, [])
  | some dp =>
      ({ s with videoParticipants := jdel s.videoParticipants socketId },
       [.videoUserLeft (.roomExcept dp.room socketId) socketId])

/-- The `videoOffer` relay handler. -/
def videoOfferH (socketId target offer : String) (s : ServerState) :
    ServerState × List Emit :=
  if (jget s.videoParticipants target).isSome then
    (s, [.videoOffer (.conn target) socketId offer])
  else (s, [])

/-- The `videoAnswer` relay handler. -/
def videoAnswerH (socketId target answer : String) (s : ServerState) :
    ServerState × List Emit :=
  if (jget s.videoParticipants target).isSome then
    (s, [.videoAnswer (.conn target) socketId answer])
  else (s, [])

/-- The `videoIceCandidate` relay handler. -/
def videoIceCandidateH (socketId target candidate : String) (s : ServerState) :
    ServerState × List Emit :=
  if (jget s.videoParticipants target).isSome then
    (s, [.videoIceCandidate (.conn target) socketId candidate])
  else (s, [])

/-- The `changeUsername` handler: update the session (the room's membership
object aliases it), refresh the denormalized name in the voice and video
records (announcing each to the record's room), announce the rename to the
session's room and re-broadcast the user list. -/
def changeUsernameH (socketId newUsername : String) (s : ServerState) :
    ServerState × List Emit :=
  match jget s.users socketId with
  | none => (s, [])
  | some user =>
      let oldUsername := user.username
      let s := { s with users := jset s.users socketId ({ user with username := newUsername }) }
      let (s, evVoice) :=
        match jget s.voiceParticipants socketId with
        | some vp =>
            let vp2 := { vp with username := newUsername }
            ({ s with voiceParticipants := jset s.voiceParticipants socketId vp2 },
             [Emit.voiceUserUpdated (.roomExcept vp.room socketId) socketId newUsername])
        | none => (s, [])
      let (s, evVideo) :=
        match jget s.videoParticipants socketId with
        | some dp =>
            let dp2 := { dp with username := newUsername }
            ({ s with videoParticipants := jset s.videoParticipants socketId dp2 },
             [Emit.videoUserUpdated (.roomExcept dp.room socketId) socketId newUsername])
        | none => (s, [])
      (s, evVoice ++ evVideo ++
        [.userChangedUsername (.room user.room) oldUsername newUsername,
         broadcastUserList s user.room])

/-- The `setStatus` handler. -/
def setStatusH (socketId status : String) (s : ServerState) : ServerState × List Emit :=
  match jget s.users socketId with
  | none => (s, [])
  | some user =>
      if status = "online" ∨ status = "away" ∨ status = "offline" then
        let s := { s with users := jset s.users socketId ({ user with status := status }) }
        (s, [.userStatusChanged (.room user.room) user.username status,
             broadcastUserList s user.room])
      else (s, [])

/-- The `typing` handler. -/
def typingH (socketId : String) (s : ServerState) : ServerState × List Emit :=
  match jget s.users socketId with
  | none => (s, [])
  | some user => (s, [.typing (.roomExcept user.room socketId) user.username user.room])

/-- The `stopTyping` handler. -/
def stopTypingH (socketId : String) (s : ServerState) : ServerState × List Emit :=
  match jget s.users socketId with
  | none => (s, [])
  | some user => (s, [.stopTyping (.roomExcept user.room socketId) user.username])

/-- The `disconnect` handler: announce the departure and the offline status
to the room first, then run `cleanupUser` (whose own announcements follow).
The transport also drops the closed connection from every broadcast group. -/
def disconnectH (socketId : String) (s : ServerState) : ServerState × List Emit :=
  match jget s.users socketId with
  | none => (s, [])
  | some user =>
      let ev1 := Emit.message (.room user.room) "System" (user.username ++ " has left")
        true false false
      let ev2 := Emit.userStatusChanged (.room user.room) user.username "offline"
      let (s, evClean) := cleanupUser socketId s
      let s := { s with groups := s.groups.filter (fun g => g.1 ≠ socketId) }
      (s, [ev1, ev2] ++ evClean)

/-- One inbound client event. -/
inductive Event where
  | join (socketId username room avatarColor : String)
  | sendMessage (socketId message : String) (isImage isAction : Bool)
  | joinVoiceChat (socketId room : String)
  | leaveVoiceChat (socketId : String)
  | voiceOffer (socketId target offer : String)
  | voiceAnswer (socketId target answer : String)
  | voiceIceCandidate (socketId target candidate : String)
  | voiceStateChange (socketId : String) (isMuted isDeafened : Bool)
  | joinVideoChat (socketId room : String)
  | leaveVideoChat (socketId : String)
  | videoOffer (socketId target offer : String)
  | videoAnswer (socketId target answer : String)
  | videoIceCandidate (socketId target candidate : String)
  | changeUsername (socketId newUsername : String)
  | setStatus (socketId status : String)
  | typing (socketId : String)
  | stopTyping (socketId : String)
  | disconnect (socketId : String)
deriving Repr, DecidableEq

/-- Dispatch one inbound event to its handler. -/
def stepE (s : ServerState) : Event → ServerState × List Emit
  | .join c u r col => let (s, ev, _) := joinH c u r col s; (s, ev)
  | .sendMessage c m i a => sendMessageH c m i a s
  | .joinVoiceChat c r => joinVoiceChatH c r s
  | .leaveVoiceChat c => leaveVoiceChatH c s
  | .voiceOffer c t o => voiceOfferH c t o s
  | .voiceAnswer c t a => voiceAnswerH c t a s
  | .voiceIceCandidate c t cd => voiceIceCandidateH c t cd s
  | .voiceStateChange c m d => voiceStateChangeH c m d s
  | .joinVideoChat c r => joinVideoChatH c r s
  | .leaveVideoChat c => leaveVideoChatH c s
  | .videoOffer c t o => videoOfferH c t o s
  | .videoAnswer c t a => videoAnswerH c t a s
  | .videoIceCandidate c t cd => videoIceCandidateH c t cd s
  | .changeUsername c n => changeUsernameH c n s
  | .setStatus c st => setStatusH c st s
  | .typing c => typingH c s
  | .stopTyping c => stopTypingH c s
  | .disconnect c => disconnectH c s

/-- States reachable from the initial state by dispatching inbound events. -/
inductive Reachable : ServerState → Prop where
  | init : Reachable initState
  | step (s : ServerState) (e : Event) : Reachable s → Reachable (stepE s e).1

end Part000

namespace ServerJs

/-- Entry of `users` in `src/server.js`. -/
structure User where
  username : String
  room : String
  socketId : ConnId
  status : String
deriving Repr, DecidableEq

/-- Entry of `voiceParticipants` in `src/server.js`. -/
structure VoiceParticipant where
  id : ConnId
  username : String
  room : String
  isMuted : Bool
  isDeafened : Bool
deriving Repr, DecidableEq

/-- Entry of `videoParticipants` in `src/server.js`. -/
structure VideoParticipant where
  id : ConnId
  username : String
  room : String
deriving Repr, DecidableEq

/-- One room of `rooms`: just the membership object (member socket ids in
insertion order; the values alias `users`).  No counter is kept. -/
structure RoomState where
  users : List ConnId
deriving Repr, DecidableEq

/-- An outbound Socket.IO event of `src/server.js` (timestamps omitted;
system messages carry no image/action flags, shown here as `false` exactly
as a receiver observes JS `undefined`). -/
inductive Emit where
  | message (tgt : Target) (user : String) (text : String) (isImage : Bool) (isAction : Bool)
  | updateUsers (tgt : Target) (users : List (String × String)) (count : Nat) (room : String)
  | roomList (tgt : Target) (entries : List (String × String × Nat))
  | voiceUserJoined (tgt : Target) (id : ConnId) (username : String)
      (isMuted : Bool) (isDeafened : Bool)
  | voiceUserLeft (tgt : Target) (who : ConnId)
  | voiceChatUsers (tgt : Target) (ps : List VoiceParticipant)
  | videoUserJoined (tgt : Target) (id : ConnId) (username : String)
  | videoUserLeft (tgt : Target) (who : ConnId)
  | videoChatUsers (tgt : Target) (ps : List VideoParticipant)
  | voiceOffer (tgt : Target) (fromId : ConnId) (offer : String)
  | voiceAnswer (tgt : Target) (fromId : ConnId) (answer : String)
  | voiceIceCandidate (tgt : Target) (fromId : ConnId) (candidate : String)
  | videoOffer (tgt : Target) (fromId : ConnId) (offer : String)
  | videoAnswer (tgt : Target) (fromId : ConnId) (answer : String)
  | videoIceCandidate (tgt : Target) (fromId : ConnId) (candidate : String)
  | voiceStateChanged (tgt : Target) (userId : ConnId) (isMuted : Bool) (isDeafened : Bool)
  | userChangedUsername (tgt : Target) (oldUsername : String) (newUsername : String)
  | userStatusChanged (tgt : Target) (username : String) (status : String)
  | voiceUserUpdated (tgt : Target) (id : ConnId) (username : String)
  | videoUserUpdated (tgt : Target) (id : ConnId) (username : String)
  | typing (tgt : Target) (username : String) (room : String)
  | stopTyping (tgt : Target) (username : String)
deriving Repr, DecidableEq

/-- The module-level registries of `src/server.js` plus the transport
broadcast groups. -/
structure ServerState where
  users : List (ConnId × User)
  rooms : List (String × RoomState)
  voiceParticipants : List (ConnId × VoiceParticipant)
  videoParticipants : List (ConnId × VideoParticipant)
  groups : List (ConnId × String)
deriving Repr, DecidableEq

/-- Initial registries. -/
def initState : ServerState :=
  { users := []
    rooms := [("general", ⟨[]⟩), ("gaming", ⟨[]⟩), ("random", ⟨[]⟩)]
    voiceParticipants := []
    videoParticipants := []
    groups := [] }

/-- The member ids of a room (empty if the room id is not in `rooms`). -/
def roomMembers (s : ServerState) (roomId : String) : List ConnId :=
  match jget s.rooms roomId with
  | some r => r.users
  | none => []

/-- `updateUsersList(room)`: `Object.values(rooms[room].users)` is the
member-id list resolved through `users` (the values alias the registry);
`count` is the number of entries of the membership object. -/
def updateUsersList (s : ServerState) (roomId : String) : Emit :=
  .updateUsers (.room roomId)
    ((roomMembers s roomId).filterMap fun c => (jget s.users c).map fun u => (u.username, u.status))
    (roomMembers s roomId).length
    roomId

/-- `id.charAt(0).toUpperCase() + id.slice(1)`. -/
def capitalizeFirst (s : String) : String :=
  match s.toList with
  | [] => ""
  | ch :: rest => String.mk (ch.toUpper :: rest)

/-- The `roomList` payload: one `{id, name, userCount}` entry per room. -/
def roomListEntries (s : ServerState) : List (String × String × Nat) :=
  s.rooms.map fun p => (p.1, capitalizeFirst p.1, p.2.users.length)

/-- Remove a member id from a room's membership object. -/
def removeMember (s : ServerState) (roomId : String) (c : ConnId) : ServerState :=
  match jget s.rooms roomId with
  | some r => { s with rooms := jset s.rooms roomId ⟨r.users.filter (· ≠ c)⟩ }
  | none => s

/-- The `join` handler of `src/server.js`.  It takes no acknowledgment
callback: an invalid payload is logged and dropped, and no response of any
kind reaches the caller.  A prior session is torn down inline (leave
message and list update to the previous room, voice/video records dropped
with departure events to the previous room), then the new session is
created and announced. -/
def joinH (socketId username room : String) (s : ServerState) :
    ServerState × List Emit :=
  if username = "" ∨ room = "" ∨ (jget s.rooms room).isNone then
    (s, [])
  else
    let (s, evPrev) :=
      match jget s.users socketId with
      | some prev =>
          let prevRoom := prev.room
          let s := removeMember s prevRoom socketId
          let ev0 := Emit.message (.room prevRoom) "System" (prev.username ++ " has left")
            false false
          let ev1 := updateUsersList s prevRoom
          let (s, evV) :=
            match jget s.voiceParticipants socketId with
            | some _ =>
                ({ s with voiceParticipants := jdel s.voiceParticipants socketId },
                 [Emit.voiceUserLeft (.roomExcept prevRoom socketId) socketId])
            | none => (s, [])
          let (s, evD) :=
            match jget s.videoParticipants socketId with
            | some _ =>
                ({ s with videoParticipants := jdel s.videoParticipants socketId },
                 [Emit.videoUserLeft (.roomExcept prevRoom socketId) socketId])
            | none => (s, [])
          (s, [ev0, ev1] ++ evV ++ evD)
      | none => (s, [])
    let user : User := { username := username, room := room, socketId := socketId
                         status := "online" }
    let s := { s with users := jset s.users socketId user }
    let s := { s with groups := Part000.insertGroup s.groups (socketId, room) }
    let s :=
      match jget s.rooms room with
      | some r => { s with rooms := jset s.rooms room ⟨Part000.insertMember r.users socketId⟩ }
      | none => s
    let evJoin := Emit.message (.room room) "System" (username ++ " has joined " ++ room)
      false false
    (s, evPrev ++ [evJoin, updateUsersList s room,
                   .roomList (.self socketId) (roomListEntries s)])

/-- The `joinVoiceChat` handler of `src/server.js`. -/
def joinVoiceChatH (socketId room : String) (s : ServerState) :
    ServerState × List Emit :=
  match jget s.users socketId with
  | none => (s, [])
  | some user =>
      let p : VoiceParticipant :=
        { id := socketId, username := user.username, room := room
          isMuted := false, isDeafened := false }
      let s := { s with voiceParticipants := jset s.voiceParticipants socketId p }
      let participants := (jvalues s.voiceParticipants).filter
        fun q => q.room == room && q.id != socketId
      (s, [.voiceUserJoined (.roomExcept room socketId) socketId user.username false false,
           .voiceChatUsers (.self socketId) participants])

/-- The `joinVideoChat` handler of `src/server.js`. -/
def joinVideoChatH (socketId room : String) (s : ServerState) :
    ServerState × List Emit :=
  match jget s.users socketId with
  | none => (s, [])
  | some user =>
      let p : VideoParticipant :=
        { id := socketId, username := user.username, room := room }
      let s := { s with videoParticipants := jset s.videoParticipants socketId p }
      let participants := (jvalues s.videoParticipants).filter
        fun q => q.room == room && q.id != socketId
      (s, [.videoUserJoined (.roomExcept room socketId) socketId user.username,
           .videoChatUsers (.self socketId) participants])

/-- The `voiceOffer` relay handler of `src/server.js`. -/
def voiceOfferH (socketId target offer : String) (s : ServerState) :
    ServerState × List Emit :=
  if (jget s.voiceParticipants target).isSome then
    (s, [.voiceOffer (.conn target) socketId offer])
  else (s, [])

/-- The `voiceAnswer` relay handler of `src/server.js`. -/
def voiceAnswerH (socketId target answer : String) (s : ServerState) :
    ServerState × List Emit :=
  if (jget s.voiceParticipants target).isSome then
    (s, [.voiceAnswer (.conn target) socketId answer])
  else (s, [])

/-- The `voiceIceCandidate` relay handler of `src/server.js`. -/
def voiceIceCandidateH (socketId target candidate : String) (s : ServerState) :
    ServerState × List Emit :=
  if (jget s.voiceParticipants target).isSome then
    (s, [.voiceIceCandidate (.conn target) socketId candidate])
  else (s, [])

/-- The `videoOffer` relay handler of `src/server.js`. -/
def videoOfferH (socketId target offer : String) (s : ServerState) :
    ServerState × List Emit :=
  if (jget s.videoParticipants target).isSome then
    (s, [.videoOffer (.conn target) socketId offer])
  else (s, [])

/-- The `videoAnswer` relay handler of `src/server.js`. -/
def videoAnswerH (socketId target answer : String) (s : ServerState) :
    ServerState × List Emit :=
  if (jget s.videoParticipants target).isSome then
    (s, [.videoAnswer (.conn target) socketId answer])
  else (s, [])

/-- The `videoIceCandidate` relay handler of `src/server.js`. -/
def videoIceCandidateH (socketId target candidate : String) (s : ServerState) :
    ServerState × List Emit :=
  if (jget s.videoParticipants target).isSome then
    (s, [.videoIceCandidate (.conn target) socketId candidate])
  else (s, [])

/-- The `changeUsername` handler of `src/server.js`: update the session
(the room's membership object aliases it), announce the rename and the new
list to the room, then refresh the denormalized name in the voice and video
records, announcing each to the session's current room. -/
def changeUsernameH (socketId newUsername : String) (s : ServerState) :
    ServerState × List Emit :=
  match jget s.users socketId with
  | none => (s, [])
  | some user =>
      let oldUsername := user.username
      let s := { s with users := jset s.users socketId ({ user with username := newUsername }) }
      let ev0 := Emit.userChangedUsername (.room user.room) oldUsername newUsername
      let ev1 := updateUsersList s user.room
      let (s, evVoice) :=
        match jget s.voiceParticipants socketId with
        | some vp =>
            let vp2 := { vp with username := newUsername }
            ({ s with voiceParticipants := jset s.voiceParticipants socketId vp2 },
             [Emit.voiceUserUpdated (.roomExcept user.room socketId) socketId newUsername])
        | none => (s, [])
      let (s, evVideo) :=
        match jget s.videoParticipants socketId with
        | some dp =>
            let dp2 := { dp with username := newUsername }
            ({ s with videoParticipants := jset s.videoParticipants socketId dp2 },
             [Emit.videoUserUpdated (.roomExcept user.room socketId) socketId newUsername])
        | none => (s, [])
      (s, [ev0, ev1] ++ evVoice ++ evVideo)

/-- The `disconnect` handler of `src/server.js`: remove the session and its
room membership, drop the voice then the video record (announcing each to
the record's room), then send the departure message, the list update and
the offline-status announcement to the room the session was in.  The
transport also drops the closed connection from every broadcast group. -/
def disconnectH (socketId : String) (s : ServerState) : ServerState × List Emit :=
  match jget s.users socketId with
  | none => (s, [])
  | some user =>
      let room := user.room
      let username := user.username
      let s := removeMember s room socketId
      let s := { s with users := jdel s.users socketId }
      let (s, evV) :=
        match jget s.voiceParticipants socketId with
        | some vp =>
            ({ s with voiceParticipants := jdel s.voiceParticipants socketId },
             [Emit.voiceUserLeft (.roomExcept vp.room socketId) socketId])
        | none => (s, [])
      let (s, evD) :=
        match jget s.videoParticipants socketId with
        | some dp =>
            ({ s with videoParticipants := jdel s.videoParticipants socketId },
             [Emit.videoUserLeft (.roomExcept dp.room socketId) socketId])
        | none => (s, [])
      let s := { s with groups := s.groups.filter (fun g => g.1 ≠ socketId) }
      (s, evV ++ evD ++
        [.message (.room room) "System" (username ++ " has left") false false,
         updateUsersList s room,
         .userStatusChanged (.room room) username "offline"])

end ServerJs

/-! Generic lemmas about the JS dictionary embedding and trace helpers. -/

/-- Deleting an absent key is the identity. -/
theorem jdel_eq_self {α : Type} (l : List (String × α)) (k : String)
    (h : jget l k = none) : jdel l k = l := by
  induction l with
  | nil => rfl
  | cons hd tl ih =>
      obtain ⟨k₀, v₀⟩ := hd
      by_cases h₀ : k₀ = k
      · simp [jget, h₀] at h
      · simp [jget, h₀] at h
        simp [jdel, h₀, ih h]

/-- Two successive writes to the same key collapse to the second. -/
theorem jset_jset {α : Type} (l : List (String × α)) (k : String) (a b : α) :
    jset (jset l k a) k b = jset l k b := by
  induction l with
  | nil => simp [jset]
  | cons hd tl ih =>
      obtain ⟨k₀, v₀⟩ := hd
      by_cases h₀ : k₀ = k <;> simp [jset, h₀, ih]

/-- A lookup hit is a pair of the list. -/
theorem jget_mem_pair {α : Type} (l : List (String × α)) (k : String) (v : α)
    (h : jget l k = some v) : (k, v) ∈ l := by
  induction l with
  | nil => simp [jget] at h
  | cons hd tl ih =>
      obtain ⟨k₀, v₀⟩ := hd
      by_cases h₀ : k₀ = k
      · subst h₀
        simp [jget] at h
        simp [h]
      · simp [jget, h₀] at h
        simp [ih h]

/-- Number of events of a trace satisfying a predicate. -/
def countP {α : Type} (p : α → Bool) (l : List α) : Nat :=
  (l.filter p).length

@[simp] theorem countP_nil {α : Type} (p : α → Bool) : countP p [] = 0 := rfl

@[simp] theorem countP_cons {α : Type} (p : α → Bool) (a : α) (l : List α) :
    countP p (a :: l) = (if p a then 1 else 0) + countP p l := by
  by_cases h : p a <;> simp [countP, h, Nat.add_comm]

@[simp] theorem countP_append {α : Type} (p : α → Bool) (l₁ l₂ : List α) :
    countP p (l₁ ++ l₂) = countP p l₁ + countP p l₂ := by
  simp [countP]

/-- Every `p`-event of the trace occurs strictly before every `q`-event. -/
def allBefore {α : Type} (p q : α → Bool) (l : List α) : Prop :=
  ∀ i j : Fin l.length, p (l.get i) = true → q (l.get j) = true → (i : Nat) < (j : Nat)

/-- Overwriting the record at key `c` does not change the list of records
whose `id` field differs from `c`, as long as every stored record's `id`
field agrees with its key and the new record's `id` is `c`. -/
theorem jvalues_jset_filter {α : Type} (idf : α → String) (Q : α → Bool)
    (m : List (String × α)) (c : String) (p : α)
    (hp : idf p = c) (hm : ∀ kq ∈ m, idf kq.2 = kq.1) :
    (jvalues (jset m c p)).filter (fun q => Q q && (idf q != c)) =
      (jvalues m).filter (fun q => Q q && (idf q != c)) := by
  induction m with
  | nil => simp [jset, jvalues, hp]
  | cons hd tl ih =>
      obtain ⟨k₀, v₀⟩ := hd
      have hv₀ : idf v₀ = k₀ := hm (k₀, v₀) (by simp)
      have htl : ∀ kq ∈ tl, idf kq.2 = kq.1 := fun kq hkq => hm kq (by simp [hkq])
      by_cases h₀ : k₀ = c
      · subst h₀
        simp [jset, jvalues, hp, hv₀]
      · simp only [jset, if_neg h₀, jvalues, List.map_cons, List.filter_cons]
        simp only [jvalues] at ih
        rw [ih htl]

namespace Part000

/-- Is this a `voiceUserLeft` event? -/
def Emit.isVoiceLeft : Emit → Bool
  | .voiceUserLeft _ _ => true
  | _ => false

/-- Is this a `videoUserLeft` event? -/
def Emit.isVideoLeft : Emit → Bool
  | .videoUserLeft _ _ => true
  | _ => false

/-- Is this a call-departure announcement (voice or video)? -/
def Emit.isCallLeft (e : Emit) : Bool :=
  e.isVoiceLeft || e.isVideoLeft

/-- Is this a `message` event sent by `System`? -/
def Emit.isSystemMsg : Emit → Bool
  | .message _ user _ _ _ _ => user == "System"
  | _ => false

/-- Is this an `updateUsers` event targeted at room `r`? -/
def Emit.isUpdateUsersTo (r : String) : Emit → Bool
  | .updateUsers tgt _ _ _ => tgt == .room r
  | _ => false

/-- Is this a `userChangedUsername` event? -/
def Emit.isUserChangedUsername : Emit → Bool
  | .userChangedUsername _ _ _ => true
  | _ => false

/-- Is this a `voiceUserUpdated` event? -/
def Emit.isVoiceUserUpdated : Emit → Bool
  | .voiceUserUpdated _ _ _ => true
  | _ => false

/-- Is this a `videoUserUpdated` event? -/
def Emit.isVideoUserUpdated : Emit → Bool
  | .videoUserUpdated _ _ _ => true
  | _ => false

/-- Which connections a targeted emission reaches: a room target reaches
the members of the transport broadcast group (which `socket.join` grew and
only a transport-level disconnect shrinks), a `socket.to` target the same
minus the sender, and a connection target exactly that connection. -/
def receives (s : ServerState) (t : Target) (c : ConnId) : Bool :=
  match t with
  | .room r => (s.groups.contains (c, r))
  | .roomExcept r sender => (s.groups.contains (c, r)) && (c != sender)
  | .conn c2 => c == c2
  | .self c2 => c == c2

end Part000

namespace ServerJs

/-- Is this a `voiceUserLeft` event? -/
def Emit.isVoiceLeft : Emit → Bool
  | .voiceUserLeft _ _ => true
  | _ => false

/-- Is this a `videoUserLeft` event? -/
def Emit.isVideoLeft : Emit → Bool
  | .videoUserLeft _ _ => true
  | _ => false

/-- Is this a call-departure announcement (voice or video)? -/
def Emit.isCallLeft (e : Emit) : Bool :=
  e.isVoiceLeft || e.isVideoLeft

/-- Is this a `message` event sent by `System`? -/
def Emit.isSystemMsg : Emit → Bool
  | .message _ user _ _ _ => user == "System"
  | _ => false

/-- Is this an `updateUsers` event targeted at room `r`? -/
def Emit.isUpdateUsersTo (r : String) : Emit → Bool
  | .updateUsers tgt _ _ _ => tgt == .room r
  | _ => false

/-- Is this a `userChangedUsername` event? -/
def Emit.isUserChangedUsername : Emit → Bool
  | .userChangedUsername _ _ _ => true
  | _ => false

/-- Is this a `voiceUserUpdated` event? -/
def Emit.isVoiceUserUpdated : Emit → Bool
  | .voiceUserUpdated _ _ _ => true
  | _ => false

/-- Is this a `videoUserUpdated` event? -/
def Emit.isVideoUserUpdated : Emit → Bool
  | .videoUserUpdated _ _ _ => true
  | _ => false

end ServerJs

/-! Concrete fixture states used by the witnesses. -/

/-- A part_000 state with a session, a voice record and a video record for
connection `B` in `general`, as produced by a join followed by both
call-joins. -/
def Part000.fixtureB : Part000.ServerState :=
  (Part000.stepE
    (Part000.stepE
      (Part000.stepE Part000.initState (.join "B" "Bob" "general" "#abc")).1
      (.joinVoiceChat "B" "general")).1
    (.joinVideoChat "B" "general")).1

/-- The matching server.js fixture. -/
def ServerJs.fixtureB : ServerJs.ServerState :=
  (ServerJs.joinVideoChatH "B" "general"
    (ServerJs.joinVoiceChatH "B" "general"
      (ServerJs.joinH "B" "Bob" "general" ServerJs.initState).1).1).1

/-- C3: a voice/video offer, answer or ICE-candidate relay checks that the
target holds a call record of the matching type; when it does the relay
produces exactly one outbound event, `{from, payload}` addressed to the
target connection alone, and when it does not the relay produces no
outbound event at all; the registries are untouched either way.  Proved
for all six relay handlers of both revisions. -/
theorem relay_forwards_to_target_only :
    ∀ (s : Part000.ServerState) (s2 : ServerJs.ServerState) (c t payload : String),
      (((jget s.voiceParticipants t).isSome = true →
          Part000.voiceOfferH c t payload s = (s, [.voiceOffer (.conn t) c payload])) ∧
       ((jget s.voiceParticipants t).isSome = false →
          Part000.voiceOfferH c t payload s = (s, []))) ∧
      (((jget s.voiceParticipants t).isSome = true →
          Part000.voiceAnswerH c t payload s = (s, [.voiceAnswer (.conn t) c payload])) ∧
       ((jget s.voiceParticipants t).isSome = false →
          Part000.voiceAnswerH c t payload s = (s, []))) ∧
      (((jget s.voiceParticipants t).isSome = true →
          Part000.voiceIceCandidateH c t payload s =
            (s, [.voiceIceCandidate (.conn t) c payload])) ∧
       ((jget s.voiceParticipants t).isSome = false →
          Part000.voiceIceCandidateH c t payload s = (s, []))) ∧
      (((jget s.videoParticipants t).isSome = true →
          Part000.videoOfferH c t payload s = (s, [.videoOffer (.conn t) c payload])) ∧
       ((jget s.videoParticipants t).isSome = false →
          Part000.videoOfferH c t payload s = (s, []))) ∧
      (((jget s.videoParticipants t).isSome = true →
          Part000.videoAnswerH c t payload s = (s, [.videoAnswer (.conn t) c payload])) ∧
       ((jget s.videoParticipants t).isSome = false →
          Part000.videoAnswerH c t payload s = (s, []))) ∧
      (((jget s.videoParticipants t).isSome = true →
          Part000.videoIceCandidateH c t payload s =
            (s, [.videoIceCandidate (.conn t) c payload])) ∧
       ((jget s.videoParticipants t).isSome = false →
          Part000.videoIceCandidateH c t payload s = (s, []))) ∧
      (((jget s2.voiceParticipants t).isSome = true →
          ServerJs.voiceOfferH c t payload s2 = (s2, [.voiceOffer (.conn t) c payload])) ∧
       ((jget s2.voiceParticipants t).isSome = false →
          ServerJs.voiceOfferH c t payload s2 = (s2, []))) ∧
      (((jget s2.voiceParticipants t).isSome = true →
          ServerJs.voiceAnswerH c t payload s2 = (s2, [.voiceAnswer (.conn t) c payload])) ∧
       ((jget s2.voiceParticipants t).isSome = false →
          ServerJs.voiceAnswerH c t payload s2 = (s2, []))) ∧
      (((jget s2.voiceParticipants t).isSome = true →
          ServerJs.voiceIceCandidateH c t payload s2 =
            (s2, [.voiceIceCandidate (.conn t) c payload])) ∧
       ((jget s2.voiceParticipants t).isSome = false →
          ServerJs.voiceIceCandidateH c t payload s2 = (s2, []))) ∧
      (((jget s2.videoParticipants t).isSome = true →
          ServerJs.videoOfferH c t payload s2 = (s2, [.videoOffer (.conn t) c payload])) ∧
       ((jget s2.videoParticipants t).isSome = false →
          ServerJs.videoOfferH c t payload s2 = (s2, []))) ∧
      (((jget s2.videoParticipants t).isSome = true →
          ServerJs.videoAnswerH c t payload s2 = (s2, [.videoAnswer (.conn t) c payload])) ∧
       ((jget s2.videoParticipants t).isSome = false →
          ServerJs.videoAnswerH c t payload s2 = (s2, []))) ∧
      (((jget s2.videoParticipants t).isSome = true →
          ServerJs.videoIceCandidateH c t payload s2 =
            (s2, [.videoIceCandidate (.conn t) c payload])) ∧
       ((jget s2.videoParticipants t).isSome = false →
          ServerJs.videoIceCandidateH c t payload s2 = (s2, []))) := by
  intro s s2 c t payload
  repeat' constructor
  all_goals
    intro h
    simp [Part000.voiceOfferH, Part000.voiceAnswerH, Part000.voiceIceCandidateH,
      Part000.videoOfferH, Part000.videoAnswerH, Part000.videoIceCandidateH,
      ServerJs.voiceOfferH, ServerJs.voiceAnswerH, ServerJs.voiceIceCandidateH,
      ServerJs.videoOfferH, ServerJs.videoAnswerH, ServerJs.videoIceCandidateH, h]

/-- Witness for C3: the relay theorem applied at the fixture, forwarding a
voice offer to `B` (who holds a voice record) and dropping a voice offer
aimed at `Z` (who holds none). -/
theorem relay_forwards_to_target_only_witness :
    Part000.voiceOfferH "A" "B" "sdp" Part000.fixtureB =
      (Part000.fixtureB, [.voiceOffer (.conn "B") "A" "sdp"]) ∧
    Part000.voiceOfferH "A" "Z" "sdp" Part000.fixtureB = (Part000.fixtureB, []) ∧
    ServerJs.videoAnswerH "A" "B" "sdp" ServerJs.fixtureB =
      (ServerJs.fixtureB, [.videoAnswer (.conn "B") "A" "sdp"]) ∧
    ServerJs.videoAnswerH "A" "Z" "sdp" ServerJs.fixtureB = (ServerJs.fixtureB, []) :=
  ⟨(relay_forwards_to_target_only Part000.fixtureB ServerJs.fixtureB "A" "B" "sdp").1.1
      (by decide),
   (relay_forwards_to_target_only Part000.fixtureB ServerJs.fixtureB "A" "Z" "sdp").1.2
      (by decide),
   ((relay_forwards_to_target_only Part000.fixtureB ServerJs.fixtureB "A" "B" "sdp").2.2.2.2.2.2.2.2.2.2.1).1
      (by decide),
   ((relay_forwards_to_target_only Part000.fixtureB ServerJs.fixtureB "A" "Z" "sdp").2.2.2.2.2.2.2.2.2.2.1).2
      (by decide)⟩

/-- C5: with no active session (`users[socket.id]` absent), a voice or
video call-join is dropped: the handler returns without creating a call
record, emitting anything, or touching any registry — the silent-drop
realization of the spec's `NotJoinedToRoom` failure.  Both revisions. -/
theorem calljoin_requires_session :
    ∀ (s : Part000.ServerState) (s2 : ServerJs.ServerState) (c r : String),
      jget s.users c = none → jget s2.users c = none →
      Part000.joinVoiceChatH c r s = (s, []) ∧
      Part000.joinVideoChatH c r s = (s, []) ∧
      ServerJs.joinVoiceChatH c r s2 = (s2, []) ∧
      ServerJs.joinVideoChatH c r s2 = (s2, []) := by
  intro s s2 c r h1 h2
  simp [Part000.joinVoiceChatH, Part000.joinVideoChatH,
    ServerJs.joinVoiceChatH, ServerJs.joinVideoChatH, h1, h2]

/-- Witness for C5: a connection that never joined sends `joinVoiceChat`
to the initial state and nothing happens. -/
theorem calljoin_requires_session_witness :
    jget Part000.initState.users "Z" = none ∧
    Part000.joinVoiceChatH "Z" "general" Part000.initState = (Part000.initState, []) :=
  ⟨by decide,
   (calljoin_requires_session Part000.initState ServerJs.initState "Z" "general"
      (by decide) (by decide)).1⟩

/-- C9: a call-join of a connection with a session stores a record whose
`room` field is exactly the client-supplied argument — no comparison with
the session's current room and no catalog check — so the record can be
scoped to any string, including an uncataloged one.  Both call types, both
revisions. -/
theorem calljoin_room_unchecked :
    ∀ (s : Part000.ServerState) (s2 : ServerJs.ServerState) (c r : String)
      (u : Part000.User) (u2 : ServerJs.User),
      jget s.users c = some u → jget s2.users c = some u2 →
      jget (Part000.joinVoiceChatH c r s).1.voiceParticipants c =
        some ⟨c, u.username, r, false, false, u.avatarColor⟩ ∧
      jget (Part000.joinVideoChatH c r s).1.videoParticipants c =
        some ⟨c, u.username, r, u.avatarColor⟩ ∧
      jget (ServerJs.joinVoiceChatH c r s2).1.voiceParticipants c =
        some ⟨c, u2.username, r, false, false⟩ ∧
      jget (ServerJs.joinVideoChatH c r s2).1.videoParticipants c =
        some ⟨c, u2.username, r⟩ := by
  intro s s2 c r u u2 h1 h2
  simp [Part000.joinVoiceChatH, Part000.joinVideoChatH,
    ServerJs.joinVoiceChatH, ServerJs.joinVideoChatH, h1, h2]

/-- Witness for C9: `B`, whose session sits in `general`, call-joins the
uncataloged room string `attic`; the stored voice record is scoped to
`attic`. -/
theorem calljoin_room_unchecked_witness :
    jget Part000.fixtureB.users "B" = some ⟨"B", "Bob", "general", "#abc", "online"⟩ ∧
    jget Part000.fixtureB.rooms "attic" = none ∧
    jget (Part000.joinVoiceChatH "B" "attic" Part000.fixtureB).1.voiceParticipants "B" =
      some ⟨"B", "Bob", "attic", false, false, "#abc"⟩ :=
  ⟨by decide, by decide,
   (calljoin_room_unchecked Part000.fixtureB ServerJs.fixtureB "B" "attic"
      ⟨"B", "Bob", "general", "#abc", "online"⟩
      ⟨"Bob", "general", "B", "online"⟩ (by decide) (by decide)).1⟩

/-- Overwriting the voice record at key `c` leaves the records with other
ids untouched (part_000 registry). -/
theorem Part000.voice_jset_filter (m : List (String × Part000.VoiceParticipant))
    (c r : String) (p : Part000.VoiceParticipant)
    (hp : p.id = c) (hm : ∀ kq ∈ m, kq.2.id = kq.1) :
    (jvalues (jset m c p)).filter (fun q => q.room == r && q.id != c) =
      (jvalues m).filter (fun q => q.room == r && q.id != c) :=
  jvalues_jset_filter Part000.VoiceParticipant.id (fun q => q.room == r) m c p hp hm

/-- Overwriting the video record at key `c` leaves the records with other
ids untouched (part_000 registry). -/
theorem Part000.video_jset_filter (m : List (String × Part000.VideoParticipant))
    (c r : String) (p : Part000.VideoParticipant)
    (hp : p.id = c) (hm : ∀ kq ∈ m, kq.2.id = kq.1) :
    (jvalues (jset m c p)).filter (fun q => q.room == r && q.id != c) =
      (jvalues m).filter (fun q => q.room == r && q.id != c) :=
  jvalues_jset_filter Part000.VideoParticipant.id (fun q => q.room == r) m c p hp hm

/-- Overwriting the voice record at key `c` leaves the records with other
ids untouched (server.js registry). -/
theorem ServerJs.voice_jset_filter_js (m : List (String × ServerJs.VoiceParticipant))
    (c r : String) (p : ServerJs.VoiceParticipant)
    (hp : p.id = c) (hm : ∀ kq ∈ m, kq.2.id = kq.1) :
    (jvalues (jset m c p)).filter (fun q => q.room == r && q.id != c) =
      (jvalues m).filter (fun q => q.room == r && q.id != c) :=
  jvalues_jset_filter ServerJs.VoiceParticipant.id (fun q => q.room == r) m c p hp hm

/-- Overwriting the video record at key `c` leaves the records with other
ids untouched (server.js registry). -/
theorem ServerJs.video_jset_filter_js (m : List (String × ServerJs.VideoParticipant))
    (c r : String) (p : ServerJs.VideoParticipant)
    (hp : p.id = c) (hm : ∀ kq ∈ m, kq.2.id = kq.1) :
    (jvalues (jset m c p)).filter (fun q => q.room == r && q.id != c) =
      (jvalues m).filter (fun q => q.room == r && q.id != c) :=
  jvalues_jset_filter ServerJs.VideoParticipant.id (fun q => q.room == r) m c p hp hm

/-- C8: the list answered to a call-joining connection (`voiceChatUsers` /
`videoChatUsers`) is exactly the registry's records of that call type whose
`room` field equals the supplied room, the caller's own record excluded —
equivalently (since the caller's entry is the one at its key, given that
every stored record's `id` matches its key), the pre-join records with that
room field and an id other than the caller's.  Both call types, both
revisions. -/
theorem calljoin_returns_room_peers :
    ∀ (s : Part000.ServerState) (s2 : ServerJs.ServerState) (c r : String)
      (u : Part000.User) (u2 : ServerJs.User),
      jget s.users c = some u → jget s2.users c = some u2 →
      (∀ kq ∈ s.voiceParticipants, kq.2.id = kq.1) →
      (∀ kq ∈ s.videoParticipants, kq.2.id = kq.1) →
      (∀ kq ∈ s2.voiceParticipants, kq.2.id = kq.1) →
      (∀ kq ∈ s2.videoParticipants, kq.2.id = kq.1) →
      (Part000.joinVoiceChatH c r s).2 =
        [.voiceUserJoined (.roomExcept r c) ⟨c, u.username, r, false, false, u.avatarColor⟩,
         .voiceChatUsers (.self c)
           ((jvalues s.voiceParticipants).filter fun q => q.room == r && q.id != c)] ∧
      (Part000.joinVideoChatH c r s).2 =
        [.videoUserJoined (.roomExcept r c) ⟨c, u.username, r, u.avatarColor⟩,
         .videoChatUsers (.self c)
           ((jvalues s.videoParticipants).filter fun q => q.room == r && q.id != c)] ∧
      (ServerJs.joinVoiceChatH c r s2).2 =
        [.voiceUserJoined (.roomExcept r c) c u2.username false false,
         .voiceChatUsers (.self c)
           ((jvalues s2.voiceParticipants).filter fun q => q.room == r && q.id != c)] ∧
      (ServerJs.joinVideoChatH c r s2).2 =
        [.videoUserJoined (.roomExcept r c) c u2.username,
         .videoChatUsers (.self c)
           ((jvalues s2.videoParticipants).filter fun q => q.room == r && q.id != c)] := by
  intro s s2 c r u u2 h1 h2 wf1 wf2 wf3 wf4
  refine ⟨?_, ?_, ?_, ?_⟩
  · simp only [Part000.joinVoiceChatH, h1]
    rw [Part000.voice_jset_filter s.voiceParticipants c r _ rfl wf1]
  · simp only [Part000.joinVideoChatH, h1]
    rw [Part000.video_jset_filter s.videoParticipants c r _ rfl wf2]
  · simp only [ServerJs.joinVoiceChatH, h2]
    rw [ServerJs.voice_jset_filter_js s2.voiceParticipants c r _ rfl wf3]
  · simp only [ServerJs.joinVideoChatH, h2]
    rw [ServerJs.video_jset_filter_js s2.videoParticipants c r _ rfl wf4]

/-- Witness for C8: `A` call-joins `general` in a state where `B` already
holds a voice record there; the answer to `A` lists exactly `B`'s record. -/
theorem calljoin_returns_room_peers_witness :
    jget (Part000.joinH "A" "Alice" "general" "" Part000.fixtureB).1.users "A" =
      some ⟨"A", "Alice", "general", "#4361ee", "online"⟩ ∧
    (Part000.joinVoiceChatH "A" "general"
        (Part000.joinH "A" "Alice" "general" "" Part000.fixtureB).1).2 =
      [.voiceUserJoined (.roomExcept "general" "A")
          ⟨"A", "Alice", "general", false, false, "#4361ee"⟩,
       .voiceChatUsers (.self "A") [⟨"B", "Bob", "general", false, false, "#abc"⟩]] :=
  ⟨by decide,
   ((calljoin_returns_room_peers
      (Part000.joinH "A" "Alice" "general" "" Part000.fixtureB).1
      (ServerJs.joinH "A" "Alice" "general" ServerJs.fixtureB).1
      "A" "general" ⟨"A", "Alice", "general", "#4361ee", "online"⟩
      ⟨"Alice", "general", "A", "online"⟩
      (by decide) (by decide) (by decide) (by decide) (by decide) (by decide)).1).trans
     (by decide)⟩

/-- C6: `changeUsername` for a connection with a session and both call
records updates the session's name and the denormalized names in the voice
and the video record in the same handler run, and the handler's trace holds
exactly one `voiceUserUpdated`, exactly one `videoUserUpdated` and exactly
one `userChangedUsername` event, the latter addressed to the session's
room.  Both revisions. -/
theorem rename_propagates :
    ∀ (s : Part000.ServerState) (s2 : ServerJs.ServerState) (c n : String)
      (u : Part000.User) (vp : Part000.VoiceParticipant) (dp : Part000.VideoParticipant)
      (u2 : ServerJs.User) (vp2 : ServerJs.VoiceParticipant) (dp2 : ServerJs.VideoParticipant),
      jget s.users c = some u →
      jget s.voiceParticipants c = some vp →
      jget s.videoParticipants c = some dp →
      jget s2.users c = some u2 →
      jget s2.voiceParticipants c = some vp2 →
      jget s2.videoParticipants c = some dp2 →
      (jget (Part000.changeUsernameH c n s).1.users c = some ({ u with username := n }) ∧
       jget (Part000.changeUsernameH c n s).1.voiceParticipants c =
         some ({ vp with username := n }) ∧
       jget (Part000.changeUsernameH c n s).1.videoParticipants c =
         some ({ dp with username := n }) ∧
       countP Part000.Emit.isUserChangedUsername (Part000.changeUsernameH c n s).2 = 1 ∧
       countP Part000.Emit.isVoiceUserUpdated (Part000.changeUsernameH c n s).2 = 1 ∧
       countP Part000.Emit.isVideoUserUpdated (Part000.changeUsernameH c n s).2 = 1 ∧
       Part000.Emit.userChangedUsername (.room u.room) u.username n ∈
         (Part000.changeUsernameH c n s).2) ∧
      (jget (ServerJs.changeUsernameH c n s2).1.users c = some ({ u2 with username := n }) ∧
       jget (ServerJs.changeUsernameH c n s2).1.voiceParticipants c =
         some ({ vp2 with username := n }) ∧
       jget (ServerJs.changeUsernameH c n s2).1.videoParticipants c =
         some ({ dp2 with username := n }) ∧
       countP ServerJs.Emit.isUserChangedUsername (ServerJs.changeUsernameH c n s2).2 = 1 ∧
       countP ServerJs.Emit.isVoiceUserUpdated (ServerJs.changeUsernameH c n s2).2 = 1 ∧
       countP ServerJs.Emit.isVideoUserUpdated (ServerJs.changeUsernameH c n s2).2 = 1 ∧
       ServerJs.Emit.userChangedUsername (.room u2.room) u2.username n ∈
         (ServerJs.changeUsernameH c n s2).2) := by
  intro s s2 c n u vp dp u2 vp2 dp2 h1 h2 h3 h4 h5 h6
  constructor
  · simp [Part000.changeUsernameH, h1, h2, h3, Part000.broadcastUserList,
      Part000.Emit.isUserChangedUsername, Part000.Emit.isVoiceUserUpdated,
      Part000.Emit.isVideoUserUpdated, countP]
  · simp [ServerJs.changeUsernameH, h4, h5, h6, ServerJs.updateUsersList,
      ServerJs.Emit.isUserChangedUsername, ServerJs.Emit.isVoiceUserUpdated,
      ServerJs.Emit.isVideoUserUpdated, countP]

/-- Witness for C6: renaming `B` (who holds voice and video records) to
`Bobby` at the fixture. -/
theorem rename_propagates_witness :
    jget Part000.fixtureB.users "B" = some ⟨"B", "Bob", "general", "#abc", "online"⟩ ∧
    jget (Part000.changeUsernameH "B" "Bobby" Part000.fixtureB).1.voiceParticipants "B" =
      some ⟨"B", "Bobby", "general", false, false, "#abc"⟩ ∧
    countP Part000.Emit.isUserChangedUsername
      (Part000.changeUsernameH "B" "Bobby" Part000.fixtureB).2 = 1 :=
  ⟨by decide,
   ((rename_propagates Part000.fixtureB ServerJs.fixtureB "B" "Bobby"
      ⟨"B", "Bob", "general", "#abc", "online"⟩
      ⟨"B", "Bob", "general", false, false, "#abc"⟩
      ⟨"B", "Bob", "general", "#abc"⟩
      ⟨"Bob", "general", "B", "online"⟩
      ⟨"B", "Bob", "general", false, false⟩
      ⟨"B", "Bob", "general"⟩
      (by decide) (by decide) (by decide) (by decide) (by decide) (by decide)).1).2.1,
   ((rename_propagates Part000.fixtureB ServerJs.fixtureB "B" "Bobby"
      ⟨"B", "Bob", "general", "#abc", "online"⟩
      ⟨"B", "Bob", "general", false, false, "#abc"⟩
      ⟨"B", "Bob", "general", "#abc"⟩
      ⟨"Bob", "general", "B", "online"⟩
      ⟨"B", "Bob", "general", false, false⟩
      ⟨"B", "Bob", "general"⟩
      (by decide) (by decide) (by decide) (by decide) (by decide) (by decide)).1).2.2.2.1⟩

/-- C7 (amended): a `join` whose room is not in the catalog leaves every
registry unchanged — including a prior session of the same connection —
in both revisions; the part_000 revision acknowledges the failure through
the callback, while the server.js revision (whose handler takes no
callback) emits nothing and acknowledges nothing. -/
theorem unknown_room_join_rejected :
    ∀ (s : Part000.ServerState) (s2 : ServerJs.ServerState) (c uname col room : String),
      (jget s.rooms room).isNone = true →
      (jget s2.rooms room).isNone = true →
      Part000.joinH c uname room col s = (s, [], .fail "Invalid join data") ∧
      ServerJs.joinH c uname room s2 = (s2, []) := by
  intro s s2 c uname col room h1 h2
  constructor
  · simp [Part000.joinH, h1]
  · simp [ServerJs.joinH, h2]

/-- Witness for C7 (amended): joining the uncataloged room `lobby` from a
state where `B` already holds a session changes nothing and, in part_000,
is acknowledged as a failure. -/
theorem unknown_room_join_rejected_witness :
    (jget Part000.fixtureB.rooms "lobby").isNone = true ∧
    Part000.joinH "B" "Bob" "lobby" "" Part000.fixtureB =
      (Part000.fixtureB, [], .fail "Invalid join data") :=
  ⟨by decide,
   (unknown_room_join_rejected Part000.fixtureB ServerJs.fixtureB "B" "Bob" "" "lobby"
      (by decide) (by decide)).1⟩

/-- Counterexample for C7 as stated: in the `src/server.js` revision the
`join` handler takes no acknowledgment callback, so a join referencing the
uncataloged room `lobby` produces no outbound event whatsoever — in
particular it is not acknowledged as a failure to the sender (the state is
indeed unchanged). -/
theorem unknown_room_join_rejected_cex :
    (ServerJs.joinH "s1" "alice" "lobby" ServerJs.initState).2 = ([] : List ServerJs.Emit) ∧
    (ServerJs.joinH "s1" "alice" "lobby" ServerJs.initState).1 = ServerJs.initState := by
  constructor <;> rfl

instance allBeforeDecidable {α : Type} (p q : α → Bool) (l : List α) :
    Decidable (allBefore p q l) := by
  unfold allBefore
  infer_instance

/-- If no `q`-event occurs in the first chunk and no `p`-event occurs in
the second, then in the concatenation every `p`-event precedes every
`q`-event. -/
theorem allBefore_of_append {α : Type} (p q : α → Bool) (l₁ l₂ : List α)
    (h₁ : ∀ x ∈ l₁, q x = false) (h₂ : ∀ x ∈ l₂, p x = false) :
    allBefore p q (l₁ ++ l₂) := by
  intro i j hi hj
  rw [List.get_eq_getElem] at hi hj
  have hil : (i : Nat) < l₁.length := by
    by_contra hcon
    push_neg at hcon
    rw [List.getElem_append_right hcon] at hi
    rw [h₂ _ (List.getElem_mem _)] at hi
    simp at hi
  have hjl : l₁.length ≤ (j : Nat) := by
    by_contra hcon
    push_neg at hcon
    rw [List.getElem_append_left hcon] at hj
    rw [h₁ _ (List.getElem_mem _)] at hj
    simp at hj
  exact lt_of_lt_of_le hil hjl

/-- Teardown shape of the part_000 `disconnect`: both call records and the
session are removed, each departure event appears exactly once, and the
`System` departure message precedes both call-departure events. -/
theorem Part000.disconnect_teardown (s : Part000.ServerState) (c : String)
    (u : Part000.User) (vp : Part000.VoiceParticipant) (dp : Part000.VideoParticipant)
    (h1 : jget s.users c = some u) (h2 : jget s.voiceParticipants c = some vp)
    (h3 : jget s.videoParticipants c = some dp) :
    jget (Part000.disconnectH c s).1.users c = none ∧
    jget (Part000.disconnectH c s).1.voiceParticipants c = none ∧
    jget (Part000.disconnectH c s).1.videoParticipants c = none ∧
    countP Part000.Emit.isVoiceLeft (Part000.disconnectH c s).2 = 1 ∧
    countP Part000.Emit.isVideoLeft (Part000.disconnectH c s).2 = 1 ∧
    countP Part000.Emit.isSystemMsg (Part000.disconnectH c s).2 = 1 ∧
    allBefore Part000.Emit.isSystemMsg Part000.Emit.isCallLeft
      (Part000.disconnectH c s).2 := by
  simp only [Part000.disconnectH, Part000.cleanupUser, h1]
  rcases hr : jget s.rooms u.room with _ | r
  · simp [hr, h2, h3, countP, Part000.Emit.isVoiceLeft, Part000.Emit.isVideoLeft,
      Part000.Emit.isSystemMsg]
    exact allBefore_of_append _ _ [_, _] [_, _]
      (by intro x hx; fin_cases hx <;> rfl)
      (by intro x hx; fin_cases hx <;> rfl)
  · simp [hr, h2, h3, countP, Part000.updateRoomUserCount, Part000.broadcastUserList,
      jget_jset_self, Part000.Emit.isVoiceLeft, Part000.Emit.isVideoLeft,
      Part000.Emit.isSystemMsg]
    exact allBefore_of_append _ _ [_, _, _] [_, _]
      (by intro x hx; fin_cases hx <;> rfl)
      (by intro x hx; fin_cases hx <;> rfl)

/-- Teardown shape of the server.js `disconnect`: both call records and the
session are removed, each departure event appears exactly once, and both
call-departure events precede the `System` departure message. -/
theorem ServerJs.disconnect_teardown_js (s : ServerJs.ServerState) (c : String)
    (u : ServerJs.User) (vp : ServerJs.VoiceParticipant) (dp : ServerJs.VideoParticipant)
    (h1 : jget s.users c = some u) (h2 : jget s.voiceParticipants c = some vp)
    (h3 : jget s.videoParticipants c = some dp) :
    jget (ServerJs.disconnectH c s).1.users c = none ∧
    jget (ServerJs.disconnectH c s).1.voiceParticipants c = none ∧
    jget (ServerJs.disconnectH c s).1.videoParticipants c = none ∧
    countP ServerJs.Emit.isVoiceLeft (ServerJs.disconnectH c s).2 = 1 ∧
    countP ServerJs.Emit.isVideoLeft (ServerJs.disconnectH c s).2 = 1 ∧
    countP ServerJs.Emit.isSystemMsg (ServerJs.disconnectH c s).2 = 1 ∧
    allBefore ServerJs.Emit.isCallLeft ServerJs.Emit.isSystemMsg
      (ServerJs.disconnectH c s).2 := by
  simp only [ServerJs.disconnectH, ServerJs.removeMember, h1]
  rcases hr : jget s.rooms u.room with _ | r <;>
    simp [hr, h2, h3, countP, ServerJs.updateUsersList, jget_jset_self,
      ServerJs.Emit.isVoiceLeft, ServerJs.Emit.isVideoLeft,
      ServerJs.Emit.isSystemMsg] <;>
    exact allBefore_of_append _ _ [_, _] [_, _, _]
      (by intro x hx; fin_cases hx <;> rfl)
      (by intro x hx; fin_cases hx <;> rfl)

/-- C4 (amended): disconnecting a connection holding both a voice and a
video record removes both records (and the session) and emits exactly one
voice and one video departure announcement in both revisions; the relative
order of the room-leave message differs by revision — in `src/server.js`
the room-leave message comes after the two call-departure announcements,
while in `src/unnamed/part_000` it comes before them. -/
theorem disconnect_removes_both_calls :
    ∀ (s : Part000.ServerState) (s2 : ServerJs.ServerState) (c : String)
      (u : Part000.User) (vp : Part000.VoiceParticipant) (dp : Part000.VideoParticipant)
      (u2 : ServerJs.User) (vp2 : ServerJs.VoiceParticipant) (dp2 : ServerJs.VideoParticipant),
      jget s.users c = some u →
      jget s.voiceParticipants c = some vp →
      jget s.videoParticipants c = some dp →
      jget s2.users c = some u2 →
      jget s2.voiceParticipants c = some vp2 →
      jget s2.videoParticipants c = some dp2 →
      (jget (Part000.disconnectH c s).1.voiceParticipants c = none ∧
       jget (Part000.disconnectH c s).1.videoParticipants c = none ∧
       countP Part000.Emit.isVoiceLeft (Part000.disconnectH c s).2 = 1 ∧
       countP Part000.Emit.isVideoLeft (Part000.disconnectH c s).2 = 1 ∧
       countP Part000.Emit.isSystemMsg (Part000.disconnectH c s).2 = 1 ∧
       allBefore Part000.Emit.isSystemMsg Part000.Emit.isCallLeft
         (Part000.disconnectH c s).2) ∧
      (jget (ServerJs.disconnectH c s2).1.voiceParticipants c = none ∧
       jget (ServerJs.disconnectH c s2).1.videoParticipants c = none ∧
       countP ServerJs.Emit.isVoiceLeft (ServerJs.disconnectH c s2).2 = 1 ∧
       countP ServerJs.Emit.isVideoLeft (ServerJs.disconnectH c s2).2 = 1 ∧
       countP ServerJs.Emit.isSystemMsg (ServerJs.disconnectH c s2).2 = 1 ∧
       allBefore ServerJs.Emit.isCallLeft ServerJs.Emit.isSystemMsg
         (ServerJs.disconnectH c s2).2) := by
  intro s s2 c u vp dp u2 vp2 dp2 h1 h2 h3 h4 h5 h6
  obtain ⟨-, p2, p3, p4, p5, p6, p7⟩ := Part000.disconnect_teardown s c u vp dp h1 h2 h3
  obtain ⟨-, q2, q3, q4, q5, q6, q7⟩ := ServerJs.disconnect_teardown_js s2 c u2 vp2 dp2 h4 h5 h6
  exact ⟨⟨p2, p3, p4, p5, p6, p7⟩, ⟨q2, q3, q4, q5, q6, q7⟩⟩

/-- Counterexample for C4 as stated: at a reachable part_000 state where
`B` holds voice and video records, the disconnect trace contains the one
`System` room-leave message and the two call-departure events, but the
call departures do NOT all precede the room-leave message (the source
emits the message first, then runs `cleanupUser`). -/
theorem disconnect_removes_both_calls_cex :
    countP Part000.Emit.isVoiceLeft (Part000.disconnectH "B" Part000.fixtureB).2 = 1 ∧
    countP Part000.Emit.isVideoLeft (Part000.disconnectH "B" Part000.fixtureB).2 = 1 ∧
    countP Part000.Emit.isSystemMsg (Part000.disconnectH "B" Part000.fixtureB).2 = 1 ∧
    ¬ allBefore Part000.Emit.isCallLeft Part000.Emit.isSystemMsg
        (Part000.disconnectH "B" Part000.fixtureB).2 := by
  refine ⟨by decide, by decide, by decide, ?_⟩
  decide

/-- Witness for C4 (amended): the theorem applied at the fixtures. -/
theorem disconnect_removes_both_calls_witness :
    jget Part000.fixtureB.voiceParticipants "B" =
      some ⟨"B", "Bob", "general", false, false, "#abc"⟩ ∧
    jget (Part000.disconnectH "B" Part000.fixtureB).1.voiceParticipants "B" = none ∧
    allBefore ServerJs.Emit.isCallLeft ServerJs.Emit.isSystemMsg
      (ServerJs.disconnectH "B" ServerJs.fixtureB).2 :=
  ⟨by decide,
   ((disconnect_removes_both_calls Part000.fixtureB ServerJs.fixtureB "B"
      ⟨"B", "Bob", "general", "#abc", "online"⟩
      ⟨"B", "Bob", "general", false, false, "#abc"⟩
      ⟨"B", "Bob", "general", "#abc"⟩
      ⟨"Bob", "general", "B", "online"⟩
      ⟨"B", "Bob", "general", false, false⟩
      ⟨"B", "Bob", "general"⟩
      (by decide) (by decide) (by decide) (by decide) (by decide) (by decide)).1).1,
   ((disconnect_removes_both_calls Part000.fixtureB ServerJs.fixtureB "B"
      ⟨"B", "Bob", "general", "#abc", "online"⟩
      ⟨"B", "Bob", "general", false, false, "#abc"⟩
      ⟨"B", "Bob", "general", "#abc"⟩
      ⟨"Bob", "general", "B", "online"⟩
      ⟨"B", "Bob", "general", false, false⟩
      ⟨"B", "Bob", "general"⟩
      (by decide) (by decide) (by decide) (by decide) (by decide) (by decide)).2).2.2.2.2.2⟩

namespace Part000

/-- `cleanupUser` on a connection with no session does nothing. -/
theorem cleanupUser_none (s : ServerState) (c : String)
    (h : jget s.users c = none) : cleanupUser c s = (s, []) := by
  simp [cleanupUser, h]

/-- State shape after `cleanupUser` on a connection with a session: the
session and both call records are gone, the session's room (when
cataloged) has the connection filtered out and its counter recomputed, and
the transport groups are untouched. -/
theorem cleanupUser_fst (s : ServerState) (c : String) (user : User)
    (h : jget s.users c = some user) :
    (cleanupUser c s).1 =
      { users := jdel s.users c
        rooms :=
          match jget s.rooms user.room with
          | some r => jset s.rooms user.room
              ⟨r.users.filter (· ≠ c), (r.users.filter (· ≠ c)).length⟩
          | none => s.rooms
        voiceParticipants := jdel s.voiceParticipants c
        videoParticipants := jdel s.videoParticipants c
        groups := s.groups } := by
  simp only [cleanupUser, h]
  rcases hr : jget s.rooms user.room with _ | r <;>
  rcases hv : jget s.voiceParticipants c with _ | vp <;>
  rcases hd : jget s.videoParticipants c with _ | dp <;>
    simp [hr, hv, hd, updateRoomUserCount, jget_jset_self, jset_jset, jdel_eq_self]

/-- `cleanupUser` never touches the transport groups. -/
theorem cleanupUser_groups (s : ServerState) (c : String) :
    (cleanupUser c s).1.groups = s.groups := by
  rcases h : jget s.users c with _ | user
  · rw [cleanupUser_none s c h]
  · rw [cleanupUser_fst s c user h]

/-- `cleanupUser` preserves the room catalog's key list. -/
theorem cleanupUser_rooms_jkeys (s : ServerState) (c : String) :
    jkeys (cleanupUser c s).1.rooms = jkeys s.rooms := by
  rcases h : jget s.users c with _ | user
  · rw [cleanupUser_none s c h]
  · rw [cleanupUser_fst s c user h]
    rcases hr : jget s.rooms user.room with _ | r
    · rfl
    · exact jkeys_jset_of_mem _ _ _ (by simp [hr])

/-- Registry invariant of the part_000 machine: the room catalog's keys are
fixed, each room's membership list has no duplicates and matches the
`userCount` counter, every member id resolves to a session whose `room`
field names that room, and every session's room is cataloged. -/
structure Inv (s : ServerState) : Prop where
  rooms_keys : jkeys s.rooms = ["general", "gaming", "random"]
  mem_nodup : ∀ r rs, jget s.rooms r = some rs → rs.users.Nodup
  count_eq : ∀ r rs, jget s.rooms r = some rs → rs.userCount = rs.users.length
  mem_session : ∀ r rs c, jget s.rooms r = some rs → c ∈ rs.users →
      ∃ u, jget s.users c = some u ∧ u.room = r
  session_room : ∀ c u, jget s.users c = some u → (jget s.rooms u.room).isSome

/-- Any hit in the initial room catalog is an empty room. -/
theorem jget_initState_rooms (r : String) (rs : RoomState)
    (h : jget initState.rooms r = some rs) : rs = ⟨[], 0⟩ := by
  simp only [initState, jget] at h
  split at h
  · simp_all
  · split at h
    · simp_all
    · split at h <;> simp_all

/-- The initial state satisfies the invariant. -/
theorem inv_init : Inv initState := by
  constructor
  · rfl
  · intro r rs h
    rw [jget_initState_rooms r rs h]
    exact List.nodup_nil
  · intro r rs h
    rw [jget_initState_rooms r rs h]
    rfl
  · intro r rs c h hmem
    rw [jget_initState_rooms r rs h] at hmem
    simp at hmem
  · intro c u h
    simp [initState, jget] at h

/-- The invariant only reads the `users` and `rooms` registries. -/
theorem inv_frame (s s2 : ServerState) (hu : s2.users = s.users)
    (hr : s2.rooms = s.rooms) (h : Inv s) : Inv s2 := by
  obtain ⟨h1, h2, h3, h4, h5⟩ := h
  constructor
  · rw [hr]; exact h1
  · intro r rs hh; exact h2 r rs (hr ▸ hh)
  · intro r rs hh; exact h3 r rs (hr ▸ hh)
  · intro r rs c hh hmem
    obtain ⟨u, hu2, hu3⟩ := h4 r rs c (hr ▸ hh) hmem
    exact ⟨u, hu ▸ hu2, hu3⟩
  · intro c u hh
    rw [hr]
    exact h5 c u (hu ▸ hh)

/-- Key sets transfer `isSome` lookups. -/
theorem jget_isSome_of_jkeys_eq {α β : Type} (l1 : List (String × α))
    (l2 : List (String × β)) (k : String) (h : jkeys l1 = jkeys l2)
    (h2 : (jget l2 k).isSome) : (jget l1 k).isSome :=
  (Mizme.jget_isSome_iff_mem_jkeys l1 k).2
    (h ▸ (Mizme.jget_isSome_iff_mem_jkeys l2 k).1 h2)

/-- Adding a fresh member appends, adding a present one is a no-op. -/
theorem insertMember_mem (l : List ConnId) (c x : ConnId) :
    x ∈ insertMember l c ↔ x ∈ l ∨ x = c := by
  unfold insertMember
  by_cases h : c ∈ l
  · simp only [if_pos h]
    exact ⟨Or.inl, fun hh => hh.elim id (fun e => e ▸ h)⟩
  · simp [if_neg h]

/-- The added member is a member. -/
theorem insertMember_mem_self (l : List ConnId) (c : ConnId) :
    c ∈ insertMember l c :=
  (insertMember_mem l c c).2 (Or.inr rfl)

/-- `insertMember` preserves freedom from duplicates. -/
theorem insertMember_nodup (l : List ConnId) (c : ConnId) (h : l.Nodup) :
    (insertMember l c).Nodup := by
  unfold insertMember
  by_cases hc : c ∈ l
  · simpa [if_pos hc]
  · rw [if_neg hc]
    exact List.Nodup.append h (List.nodup_singleton c)
      (fun x hx hxc => hc (by rwa [List.mem_singleton.1 hxc] at hx))

/-- `insertGroup` keeps every existing group entry. -/
theorem insertGroup_mono (l : List (ConnId × String)) (p g : ConnId × String)
    (h : g ∈ l) : g ∈ insertGroup l p := by
  unfold insertGroup
  split <;> simp [h]

/-- The added group entry is present. -/
theorem insertGroup_mem_self (l : List (ConnId × String)) (p : ConnId × String) :
    p ∈ insertGroup l p := by
  unfold insertGroup
  split <;> simp_all

/-- `cleanupUser` removes the session. -/
theorem cleanupUser_users_none (s : ServerState) (c : String) :
    jget (cleanupUser c s).1.users c = none := by
  rcases hu : jget s.users c with _ | user
  · rw [cleanupUser_none s c hu]; exact hu
  · rw [cleanupUser_fst s c user hu]
    exact jget_jdel_self s.users c

/-- `cleanupUser` preserves the registry invariant. -/
theorem inv_cleanup (s : ServerState) (c : String) (h : Inv s) :
    Inv (cleanupUser c s).1 := by
  rcases hu : jget s.users c with _ | user
  · rw [cleanupUser_none s c hu]; exact h
  · rw [cleanupUser_fst s c user hu]
    rcases hr : jget s.rooms user.room with _ | r <;> simp only [hr]
    · constructor
      · exact h.rooms_keys
      · exact h.mem_nodup
      · exact h.count_eq
      · intro r' rs' c' hh hmem
        obtain ⟨u', hu', hroom⟩ := h.mem_session r' rs' c' hh hmem
        have hne : c' ≠ c := by
          rintro rfl
          rw [hu] at hu'
          obtain rfl : user = u' := by injection hu'
          rw [hroom] at hr
          rw [hh] at hr
          cases hr
        exact ⟨u', by rw [jget_jdel_ne _ c c' (Ne.symm hne)]; exact hu', hroom⟩
      · intro c' u' hh
        have hne : c ≠ c' := by
          rintro rfl
          rw [jget_jdel_self] at hh
          cases hh
        rw [jget_jdel_ne _ c c' hne] at hh
        exact h.session_room c' u' hh
    · constructor
      · rw [jkeys_jset_of_mem _ _ _ (by simp [hr])]
        exact h.rooms_keys
      · intro r' rs' hh
        by_cases hcase : user.room = r'
        · subst hcase
          rw [jget_jset_self] at hh
          obtain rfl : (⟨r.users.filter (· ≠ c),
              (r.users.filter (· ≠ c)).length⟩ : RoomState) = rs' := by
            injection hh
          exact (h.mem_nodup _ r hr).filter _
        · rw [jget_jset_ne _ _ _ _ hcase] at hh
          exact h.mem_nodup r' rs' hh
      · intro r' rs' hh
        by_cases hcase : user.room = r'
        · subst hcase
          rw [jget_jset_self] at hh
          obtain rfl : (⟨r.users.filter (· ≠ c),
              (r.users.filter (· ≠ c)).length⟩ : RoomState) = rs' := by
            injection hh
          rfl
        · rw [jget_jset_ne _ _ _ _ hcase] at hh
          exact h.count_eq r' rs' hh
      · intro r' rs' c' hh hmem
        by_cases hcase : user.room = r'
        · subst hcase
          rw [jget_jset_self] at hh
          obtain rfl : (⟨r.users.filter (· ≠ c),
              (r.users.filter (· ≠ c)).length⟩ : RoomState) = rs' := by
            injection hh
          simp only [List.mem_filter, decide_eq_true_eq] at hmem
          obtain ⟨hmem, hne⟩ := hmem
          obtain ⟨u', hu', hroom⟩ := h.mem_session user.room r c' hr hmem
          exact ⟨u', by rw [jget_jdel_ne _ c c' (Ne.symm hne)]; exact hu', hroom⟩
        · rw [jget_jset_ne _ _ _ _ hcase] at hh
          obtain ⟨u', hu', hroom⟩ := h.mem_session r' rs' c' hh hmem
          have hne : c' ≠ c := by
            rintro rfl
            rw [hu] at hu'
            obtain rfl : user = u' := by injection hu'
            exact hcase hroom
          exact ⟨u', by rw [jget_jdel_ne _ c c' (Ne.symm hne)]; exact hu', hroom⟩
      · intro c' u' hh
        have hne : c ≠ c' := by
          rintro rfl
          rw [jget_jdel_self] at hh
          cases hh
        rw [jget_jdel_ne _ c c' hne] at hh
        exact jget_isSome_of_jkeys_eq _ s.rooms _
          (jkeys_jset_of_mem _ _ _ (by simp [hr]))
          (h.session_room c' u' hh)

/-- After `cleanupUser c`, the connection `c` belongs to no room. -/
theorem cleanup_not_member (s : ServerState) (c : String) (h : Inv s) :
    ∀ r' rs', jget (cleanupUser c s).1.rooms r' = some rs' → c ∉ rs'.users := by
  rcases hu : jget s.users c with _ | user
  · rw [cleanupUser_none s c hu]
    intro r' rs' hh hmem
    obtain ⟨u', hu', -⟩ := h.mem_session r' rs' c hh hmem
    rw [hu] at hu'
    cases hu'
  · rw [cleanupUser_fst s c user hu]
    rcases hr : jget s.rooms user.room with _ | r <;> simp only [hr]
    · intro r' rs' hh hmem
      obtain ⟨u', hu', hroom⟩ := h.mem_session r' rs' c hh hmem
      rw [hu] at hu'
      obtain rfl : user = u' := by injection hu'
      rw [hroom] at hr
      rw [hh] at hr
      cases hr
    · intro r' rs' hh hmem
      by_cases hcase : user.room = r'
      · subst hcase
        rw [jget_jset_self] at hh
        obtain rfl : (⟨r.users.filter (· ≠ c),
            (r.users.filter (· ≠ c)).length⟩ : RoomState) = rs' := by
          injection hh
        simp at hmem
      · rw [jget_jset_ne _ _ _ _ hcase] at hh
        obtain ⟨u', hu', hroom⟩ := h.mem_session r' rs' c hh hmem
        rw [hu] at hu'
        obtain rfl : user = u' := by injection hu'
        exact hcase hroom

/-- State shape of a valid `join`: teardown of the prior session, then the
new session is stored, the target room's membership and counter updated,
and the transport group joined. -/
theorem joinH_fst (s : ServerState) (c n room col : String) (r1 : RoomState)
    (hn : ¬ n = "") (hb : ¬ room = "")
    (hcat : (jget s.rooms room).isNone = false)
    (hr1 : jget (cleanupUser c s).1.rooms room = some r1) :
    (joinH c n room col s).1 =
      { users := jset (cleanupUser c s).1.users c
          ⟨c, n, room, if col = "" then "#4361ee" else col, "online"⟩
        rooms := jset (cleanupUser c s).1.rooms room
          ⟨insertMember r1.users c, (insertMember r1.users c).length⟩
        voiceParticipants := (cleanupUser c s).1.voiceParticipants
        videoParticipants := (cleanupUser c s).1.videoParticipants
        groups := insertGroup (cleanupUser c s).1.groups (c, room) } := by
  rcases hcl : cleanupUser c s with ⟨s1, ev1⟩
  rw [hcl] at hr1
  have hr1b : jget s1.rooms room = some r1 := hr1
  simp only [joinH, hn, hb, hcat]
  simp only [hcl, hr1b, updateRoomUserCount, jget_jset_self, jset_jset]
  simp

/-- Trace shape of a valid `join`: the teardown events, then the join
message and one `updateUsers` broadcast, both to the new room. -/
theorem joinH_snd (s : ServerState) (c n room col : String)
    (hn : ¬ n = "") (hb : ¬ room = "")
    (hcat : (jget s.rooms room).isNone = false) :
    (joinH c n room col s).2.1 =
      (cleanupUser c s).2 ++
      [.message (.room room) "System" (n ++ " has joined " ++ room) true false false,
       broadcastUserList (joinH c n room col s).1 room] := by
  rcases hcl : cleanupUser c s with ⟨s1, ev1⟩
  have hsome : (jget s1.rooms room).isSome := by
    have h1 : (jget (cleanupUser c s).1.rooms room).isSome := by
      apply jget_isSome_of_jkeys_eq _ s.rooms _ (cleanupUser_rooms_jkeys s c)
      rcases ho : jget s.rooms room with _ | r
      · rw [ho] at hcat; cases hcat
      · rfl
    rw [hcl] at h1
    exact h1
  obtain ⟨r1, hr1⟩ := Option.isSome_iff_exists.1 hsome
  simp only [joinH, hn, hb, hcat]
  simp only [hcl, hr1, updateRoomUserCount, jget_jset_self, jset_jset]
  simp

/-- `cleanupUser` of a session in a cataloged room emits exactly one
`updateUsers` broadcast, to that room, and none to any other room. -/
theorem cleanupUser_trace_count (s : ServerState) (c : String) (user : User)
    (hu : jget s.users c = some user)
    (hcat : (jget s.rooms user.room).isSome) :
    countP (Emit.isUpdateUsersTo user.room) (cleanupUser c s).2 = 1 ∧
    ∀ r', r' ≠ user.room →
      countP (Emit.isUpdateUsersTo r') (cleanupUser c s).2 = 0 := by
  obtain ⟨r, hr⟩ := Option.isSome_iff_exists.1 hcat
  constructor
  · simp only [cleanupUser, hu, hr]
    rcases hv : jget s.voiceParticipants c with _ | vp <;>
    rcases hd : jget s.videoParticipants c with _ | dp <;>
      simp [hv, hd, updateRoomUserCount, jget_jset_self, jset_jset,
        broadcastUserList, Emit.isUpdateUsersTo, countP]
  · intro r' hner
    simp only [cleanupUser, hu, hr]
    rcases hv : jget s.voiceParticipants c with _ | vp <;>
    rcases hd : jget s.videoParticipants c with _ | dp <;>
      simp [hv, hd, updateRoomUserCount, jget_jset_self, jset_jset,
        broadcastUserList, Emit.isUpdateUsersTo, countP, Ne.symm hner]

/-- A rename or status change — updating the session at `c` to one with
the same `room` field — preserves the invariant. -/
theorem inv_users_update (s : ServerState) (c : String) (user u2 : User)
    (hu : jget s.users c = some user) (hroom : u2.room = user.room)
    (h : Inv s) : Inv { s with users := jset s.users c u2 } := by
  constructor
  · exact h.rooms_keys
  · exact h.mem_nodup
  · exact h.count_eq
  · intro r' rs' c' hh hmem
    obtain ⟨u', hu', hr'⟩ := h.mem_session r' rs' c' hh hmem
    by_cases hcase : c = c'
    · subst hcase
      rw [hu] at hu'
      obtain rfl : user = u' := by injection hu'
      exact ⟨u2, by rw [jget_jset_self], by rw [hroom]; exact hr'⟩
    · exact ⟨u', by rw [jget_jset_ne _ _ _ _ hcase]; exact hu', hr'⟩
  · intro c' u' hh
    by_cases hcase : c = c'
    · subst hcase
      rw [jget_jset_self] at hh
      obtain rfl : u2 = u' := by injection hh
      rw [hroom]
      exact h.session_room c user hu
    · rw [jget_jset_ne _ _ _ _ hcase] at hh
      exact h.session_room c' u' hh

/-- A valid or invalid `join` preserves the invariant. -/
theorem inv_join (s : ServerState) (c n room col : String) (h : Inv s) :
    Inv (joinH c n room col s).1 := by
  by_cases hvalid : n = "" ∨ room = "" ∨ (jget s.rooms room).isNone
  · simp only [joinH, if_pos hvalid]
    exact h
  · push_neg at hvalid
    obtain ⟨hn, hb, hc⟩ := hvalid
    have hcat : (jget s.rooms room).isNone = false := Bool.eq_false_iff.mpr hc
    have hsome : (jget (cleanupUser c s).1.rooms room).isSome := by
      apply jget_isSome_of_jkeys_eq _ s.rooms _ (cleanupUser_rooms_jkeys s c)
      rcases ho : jget s.rooms room with _ | r
      · rw [ho] at hcat; cases hcat
      · rfl
    obtain ⟨r1, hr1⟩ := Option.isSome_iff_exists.1 hsome
    rw [joinH_fst s c n room col r1 hn hb hcat hr1]
    have h1 : Inv (cleanupUser c s).1 := inv_cleanup s c h
    have hnotmem := cleanup_not_member s c h
    have husers : jget (cleanupUser c s).1.users c = none := cleanupUser_users_none s c
    constructor
    · rw [jkeys_jset_of_mem _ _ _ (by simp [hr1])]
      exact h1.rooms_keys
    · intro r' rs' hh
      by_cases hcase : room = r'
      · subst hcase
        rw [jget_jset_self] at hh
        obtain rfl : (⟨insertMember r1.users c, (insertMember r1.users c).length⟩ :
            RoomState) = rs' := by injection hh
        exact insertMember_nodup _ _ (h1.mem_nodup room r1 hr1)
      · rw [jget_jset_ne _ _ _ _ hcase] at hh
        exact h1.mem_nodup r' rs' hh
    · intro r' rs' hh
      by_cases hcase : room = r'
      · subst hcase
        rw [jget_jset_self] at hh
        obtain rfl : (⟨insertMember r1.users c, (insertMember r1.users c).length⟩ :
            RoomState) = rs' := by injection hh
        rfl
      · rw [jget_jset_ne _ _ _ _ hcase] at hh
        exact h1.count_eq r' rs' hh
    · intro r' rs' c' hh hmem
      by_cases hcase : room = r'
      · subst hcase
        rw [jget_jset_self] at hh
        obtain rfl : (⟨insertMember r1.users c, (insertMember r1.users c).length⟩ :
            RoomState) = rs' := by injection hh
        rcases (insertMember_mem r1.users c c').1 hmem with hmem' | rfl
        · have hne : c ≠ c' := by
            rintro rfl
            exact hnotmem room r1 hr1 hmem'
          obtain ⟨u', hu', hr'⟩ := h1.mem_session room r1 c' hr1 hmem'
          exact ⟨u', by rw [jget_jset_ne _ _ _ _ hne]; exact hu', hr'⟩
        · exact ⟨_, by rw [jget_jset_self], rfl⟩
      · rw [jget_jset_ne _ _ _ _ hcase] at hh
        obtain ⟨u', hu', hr'⟩ := h1.mem_session r' rs' c' hh hmem
        have hne : c ≠ c' := by
          rintro rfl
          rw [husers] at hu'
          cases hu'
        exact ⟨u', by rw [jget_jset_ne _ _ _ _ hne]; exact hu', hr'⟩
    · intro c' u' hh
      by_cases hcase : c = c'
      · subst hcase
        rw [jget_jset_self] at hh
        obtain rfl : (⟨c, n, room, if col = "" then "#4361ee" else col, "online"⟩ :
            User) = u' := by injection hh
        simp [jget_jset_self]
      · rw [jget_jset_ne _ _ _ _ hcase] at hh
        apply jget_isSome_of_jkeys_eq _ (cleanupUser c s).1.rooms _
          (jkeys_jset_of_mem _ _ _ (by simp [hr1]))
        exact h1.session_room c' u' hh

/-- `sendMessage` leaves the state untouched. -/
theorem sendMessage_fst (s : ServerState) (c m : String) (i a : Bool) :
    (sendMessageH c m i a s).1 = s := by
  rcases hu : jget s.users c with _ | user
  · simp [sendMessageH, hu]
  · simp only [sendMessageH, hu]
    split <;> rfl

/-- Handlers that never touch `users` or `rooms`. -/
theorem call_handlers_frame (s : ServerState) (c r t p : String)
    (m d : Bool) :
    ((joinVoiceChatH c r s).1.users = s.users ∧ (joinVoiceChatH c r s).1.rooms = s.rooms) ∧
    ((leaveVoiceChatH c s).1.users = s.users ∧ (leaveVoiceChatH c s).1.rooms = s.rooms) ∧
    ((voiceStateChangeH c m d s).1.users = s.users ∧
      (voiceStateChangeH c m d s).1.rooms = s.rooms) ∧
    ((joinVideoChatH c r s).1.users = s.users ∧ (joinVideoChatH c r s).1.rooms = s.rooms) ∧
    ((leaveVideoChatH c s).1.users = s.users ∧ (leaveVideoChatH c s).1.rooms = s.rooms) ∧
    ((voiceOfferH c t p s).1 = s) ∧ ((voiceAnswerH c t p s).1 = s) ∧
    ((voiceIceCandidateH c t p s).1 = s) ∧ ((videoOfferH c t p s).1 = s) ∧
    ((videoAnswerH c t p s).1 = s) ∧ ((videoIceCandidateH c t p s).1 = s) ∧
    ((typingH c s).1 = s) ∧ ((stopTypingH c s).1 = s) := by
  refine ⟨?_, ?_, ?_, ?_, ?_, ?_, ?_, ?_, ?_, ?_, ?_, ?_, ?_⟩ <;>
    first
      | (rcases hu : jget s.users c with _ | user <;>
          simp [joinVoiceChatH, joinVideoChatH, typingH, stopTypingH, hu])
      | (rcases hv : jget s.voiceParticipants c with _ | vp <;>
          simp [leaveVoiceChatH, voiceStateChangeH, hv])
      | (rcases hd : jget s.videoParticipants c with _ | dp <;>
          simp [leaveVideoChatH, hd])
      | (simp [voiceOfferH, voiceAnswerH, voiceIceCandidateH, videoOfferH,
          videoAnswerH, videoIceCandidateH]
         split <;> rfl)

/-- `changeUsername` rewrites only the session, the call records and the
trace; with a session present, `users` is updated at `c` with the same
room and `rooms` is untouched. -/
theorem changeUsername_frame (s : ServerState) (c n : String) (user : User)
    (hu : jget s.users c = some user) :
    (changeUsernameH c n s).1.users = jset s.users c ({ user with username := n }) ∧
    (changeUsernameH c n s).1.rooms = s.rooms := by
  rcases hv : jget s.voiceParticipants c with _ | vp <;>
  rcases hd : jget s.videoParticipants c with _ | dp <;>
    simp [changeUsernameH, hu, hv, hd]

/-- `changeUsername` without a session does nothing. -/
theorem changeUsername_fst_none (s : ServerState) (c n : String)
    (hu : jget s.users c = none) : (changeUsernameH c n s).1 = s := by
  simp [changeUsernameH, hu]

/-- `setStatus` either does nothing or updates the session at `c` with the
same room, leaving `rooms` untouched. -/
theorem setStatus_cases (s : ServerState) (c st : String) :
    (setStatusH c st s).1 = s ∨
    ∃ user, jget s.users c = some user ∧
      (setStatusH c st s).1 = { s with users := jset s.users c ({ user with status := st }) } := by
  rcases hu : jget s.users c with _ | user
  · left; simp [setStatusH, hu]
  · by_cases hst : st = "online" ∨ st = "away" ∨ st = "offline"
    · right
      exact ⟨user, rfl, by simp [setStatusH, hu, hst]⟩
    · left
      simp [setStatusH, hu, hst]

/-- `disconnect` reaches the `cleanupUser` state (plus the transport-group
removal). -/
theorem disconnect_frame (s : ServerState) (c : String) :
    (disconnectH c s).1.users = (cleanupUser c s).1.users ∧
    (disconnectH c s).1.rooms = (cleanupUser c s).1.rooms := by
  rcases hu : jget s.users c with _ | user
  · rw [cleanupUser_none s c hu]
    simp [disconnectH, hu]
  · rcases hcl : cleanupUser c s with ⟨s1, ev1⟩
    simp [disconnectH, hu, hcl]

/-- Every inbound event preserves the registry invariant. -/
theorem inv_step (s : ServerState) (e : Event) (h : Inv s) :
    Inv (stepE s e).1 := by
  cases e with
  | join c u r col => exact inv_join s c u r col h
  | sendMessage c m i a =>
      exact inv_frame s _ (by rw [show (stepE s (.sendMessage c m i a)).1 =
        (sendMessageH c m i a s).1 from rfl, sendMessage_fst]) (by rw [show
        (stepE s (.sendMessage c m i a)).1 = (sendMessageH c m i a s).1 from rfl,
        sendMessage_fst]) h
  | joinVoiceChat c r =>
      exact inv_frame s _ (call_handlers_frame s c r "" "" false false).1.1
        (call_handlers_frame s c r "" "" false false).1.2 h
  | leaveVoiceChat c =>
      exact inv_frame s _ (call_handlers_frame s c "" "" "" false false).2.1.1
        (call_handlers_frame s c "" "" "" false false).2.1.2 h
  | voiceOffer c t o =>
      exact inv_frame s _
        (by rw [show (stepE s (.voiceOffer c t o)).1 = (voiceOfferH c t o s).1 from rfl,
          (call_handlers_frame s c "" t o false false).2.2.2.2.2.1])
        (by rw [show (stepE s (.voiceOffer c t o)).1 = (voiceOfferH c t o s).1 from rfl,
          (call_handlers_frame s c "" t o false false).2.2.2.2.2.1]) h
  | voiceAnswer c t a =>
      exact inv_frame s _
        (by rw [show (stepE s (.voiceAnswer c t a)).1 = (voiceAnswerH c t a s).1 from rfl,
          (call_handlers_frame s c "" t a false false).2.2.2.2.2.2.1])
        (by rw [show (stepE s (.voiceAnswer c t a)).1 = (voiceAnswerH c t a s).1 from rfl,
          (call_handlers_frame s c "" t a false false).2.2.2.2.2.2.1]) h
  | voiceIceCandidate c t cd =>
      exact inv_frame s _
        (by rw [show (stepE s (.voiceIceCandidate c t cd)).1 =
            (voiceIceCandidateH c t cd s).1 from rfl,
          (call_handlers_frame s c "" t cd false false).2.2.2.2.2.2.2.1])
        (by rw [show (stepE s (.voiceIceCandidate c t cd)).1 =
            (voiceIceCandidateH c t cd s).1 from rfl,
          (call_handlers_frame s c "" t cd false false).2.2.2.2.2.2.2.1]) h
  | voiceStateChange c m d =>
      exact inv_frame s _ (call_handlers_frame s c "" "" "" m d).2.2.1.1
        (call_handlers_frame s c "" "" "" m d).2.2.1.2 h
  | joinVideoChat c r =>
      exact inv_frame s _ (call_handlers_frame s c r "" "" false false).2.2.2.1.1
        (call_handlers_frame s c r "" "" false false).2.2.2.1.2 h
  | leaveVideoChat c =>
      exact inv_frame s _ (call_handlers_frame s c "" "" "" false false).2.2.2.2.1.1
        (call_handlers_frame s c "" "" "" false false).2.2.2.2.1.2 h
  | videoOffer c t o =>
      exact inv_frame s _
        (by rw [show (stepE s (.videoOffer c t o)).1 = (videoOfferH c t o s).1 from rfl,
          (call_handlers_frame s c "" t o false false).2.2.2.2.2.2.2.2.1])
        (by rw [show (stepE s (.videoOffer c t o)).1 = (videoOfferH c t o s).1 from rfl,
          (call_handlers_frame s c "" t o false false).2.2.2.2.2.2.2.2.1]) h
  | videoAnswer c t a =>
      exact inv_frame s _
        (by rw [show (stepE s (.videoAnswer c t a)).1 = (videoAnswerH c t a s).1 from rfl,
          (call_handlers_frame s c "" t a false false).2.2.2.2.2.2.2.2.2.1])
        (by rw [show (stepE s (.videoAnswer c t a)).1 = (videoAnswerH c t a s).1 from rfl,
          (call_handlers_frame s c "" t a false false).2.2.2.2.2.2.2.2.2.1]) h
  | videoIceCandidate c t cd =>
      exact inv_frame s _
        (by rw [show (stepE s (.videoIceCandidate c t cd)).1 =
            (videoIceCandidateH c t cd s).1 from rfl,
          (call_handlers_frame s c "" t cd false false).2.2.2.2.2.2.2.2.2.2.1])
        (by rw [show (stepE s (.videoIceCandidate c t cd)).1 =
            (videoIceCandidateH c t cd s).1 from rfl,
          (call_handlers_frame s c "" t cd false false).2.2.2.2.2.2.2.2.2.2.1]) h
  | changeUsername c n =>
      rcases hu : jget s.users c with _ | user
      · exact inv_frame s _ (by rw [show (stepE s (.changeUsername c n)).1 =
          (changeUsernameH c n s).1 from rfl, changeUsername_fst_none s c n hu])
          (by rw [show (stepE s (.changeUsername c n)).1 =
            (changeUsernameH c n s).1 from rfl, changeUsername_fst_none s c n hu]) h
      · obtain ⟨he1, he2⟩ := changeUsername_frame s c n user hu
        exact inv_frame { s with users := jset s.users c ({ user with username := n }) } _
          he1 he2 (inv_users_update s c user _ hu rfl h)
  | setStatus c st =>
      rcases setStatus_cases s c st with hcase | ⟨user, hu, hcase⟩
      · exact inv_frame s _ (by rw [show (stepE s (.setStatus c st)).1 =
          (setStatusH c st s).1 from rfl, hcase]) (by rw [show
          (stepE s (.setStatus c st)).1 = (setStatusH c st s).1 from rfl, hcase]) h
      · exact inv_frame { s with users := jset s.users c ({ user with status := st }) } _
          (by rw [show (stepE s (.setStatus c st)).1 = (setStatusH c st s).1 from rfl,
            hcase]) (by rw [show (stepE s (.setStatus c st)).1 =
            (setStatusH c st s).1 from rfl, hcase])
          (inv_users_update s c user _ hu rfl h)
  | typing c =>
      exact inv_frame s _
        (by rw [show (stepE s (.typing c)).1 = (typingH c s).1 from rfl,
          (call_handlers_frame s c "" "" "" false false).2.2.2.2.2.2.2.2.2.2.2.1])
        (by rw [show (stepE s (.typing c)).1 = (typingH c s).1 from rfl,
          (call_handlers_frame s c "" "" "" false false).2.2.2.2.2.2.2.2.2.2.2.1]) h
  | stopTyping c =>
      exact inv_frame s _
        (by rw [show (stepE s (.stopTyping c)).1 = (stopTypingH c s).1 from rfl,
          (call_handlers_frame s c "" "" "" false false).2.2.2.2.2.2.2.2.2.2.2.2])
        (by rw [show (stepE s (.stopTyping c)).1 = (stopTypingH c s).1 from rfl,
          (call_handlers_frame s c "" "" "" false false).2.2.2.2.2.2.2.2.2.2.2.2]) h
  | disconnect c =>
      obtain ⟨he1, he2⟩ := disconnect_frame s c
      exact inv_frame (cleanupUser c s).1 _ he1 he2 (inv_cleanup s c h)

/-- Every reachable state satisfies the registry invariant. -/
theorem inv_reachable (s : ServerState) (h : Reachable s) : Inv s := by
  induction h with
  | init => exact inv_init
  | step s e _ ih => exact inv_step s e ih

/-- Facts about one valid `join`: the stored session, the grown transport
groups, the preserved room-catalog keys and the new membership. -/
theorem joinH_facts (s : ServerState) (c n room col : String)
    (hn : ¬ n = "") (hb : ¬ room = "")
    (hcat : (jget s.rooms room).isNone = false) :
    jget (joinH c n room col s).1.users c =
      some ⟨c, n, room, if col = "" then "#4361ee" else col, "online"⟩ ∧
    (joinH c n room col s).1.groups = insertGroup s.groups (c, room) ∧
    jkeys (joinH c n room col s).1.rooms = jkeys s.rooms ∧
    c ∈ roomMembers (joinH c n room col s).1 room := by
  have hsome : (jget (cleanupUser c s).1.rooms room).isSome := by
    apply jget_isSome_of_jkeys_eq _ s.rooms _ (cleanupUser_rooms_jkeys s c)
    rcases ho : jget s.rooms room with _ | r
    · rw [ho] at hcat; cases hcat
    · rfl
  obtain ⟨r1, hr1⟩ := Option.isSome_iff_exists.1 hsome
  rw [joinH_fst s c n room col r1 hn hb hcat hr1]
  refine ⟨by rw [jget_jset_self], by rw [cleanupUser_groups], ?_, ?_⟩
  · rw [jkeys_jset_of_mem _ _ _ (by simp [hr1])]
    exact cleanupUser_rooms_jkeys s c
  · simp only [roomMembers, jget_jset_self]
    exact insertMember_mem_self r1.users c

end Part000

/-- C1: in every reachable part_000 state a connection id belongs to at
most one room's membership list; and a connection whose session sits in
room `A ≠ B` that performs a valid join of room `B` ends up a member of
`B` and not of `A`, with room `A` receiving exactly one `updateUsers`
broadcast (the one reflecting the departure) during that join. -/
theorem connection_in_at_most_one_room :
    (∀ s, Part000.Reachable s → ∀ c r1 r2 rs1 rs2,
        jget s.rooms r1 = some rs1 → jget s.rooms r2 = some rs2 →
        c ∈ rs1.users → c ∈ rs2.users → r1 = r2) ∧
    (∀ (s : Part000.ServerState) (c n roomB col : String) (u : Part000.User),
        Part000.Reachable s → jget s.users c = some u → u.room ≠ roomB →
        ¬ n = "" → ¬ roomB = "" → (jget s.rooms roomB).isSome →
        c ∈ Part000.roomMembers (Part000.joinH c n roomB col s).1 roomB ∧
        c ∉ Part000.roomMembers (Part000.joinH c n roomB col s).1 u.room ∧
        countP (Part000.Emit.isUpdateUsersTo u.room)
          (Part000.joinH c n roomB col s).2.1 = 1) := by
  constructor
  · intro s hreach c r1 r2 rs1 rs2 h1 h2 m1 m2
    have inv := Part000.inv_reachable s hreach
    obtain ⟨u1, hu1, hr1⟩ := inv.mem_session r1 rs1 c h1 m1
    obtain ⟨u2, hu2, hr2⟩ := inv.mem_session r2 rs2 c h2 m2
    rw [hu1] at hu2
    obtain rfl : u1 = u2 := by injection hu2
    rw [← hr1, ← hr2]
  · intro s c n roomB col u hreach hu hne hn hb hcat
    have inv := Part000.inv_reachable s hreach
    have hcatB : (jget s.rooms roomB).isNone = false := by
      rcases ho : jget s.rooms roomB with _ | r
      · rw [ho] at hcat; cases hcat
      · rfl
    have hsome1 : (jget (Part000.cleanupUser c s).1.rooms roomB).isSome := by
      apply Part000.jget_isSome_of_jkeys_eq _ s.rooms _ (Part000.cleanupUser_rooms_jkeys s c)
      exact hcat
    obtain ⟨r1, hr1⟩ := Option.isSome_iff_exists.1 hsome1
    refine ⟨?_, ?_, ?_⟩
    · exact (Part000.joinH_facts s c n roomB col hn hb hcatB).2.2.2
    · rw [Part000.joinH_fst s c n roomB col r1 hn hb hcatB hr1]
      simp only [Part000.roomMembers, jget_jset_ne _ _ _ _ (Ne.symm hne)]
      rcases ho : jget (Part000.cleanupUser c s).1.rooms u.room with _ | rs'
      · simp
      · exact Part000.cleanup_not_member s c inv u.room rs' ho
    · rw [Part000.joinH_snd s c n roomB col hn hb hcatB]
      rw [countP_append]
      have hcount := Part000.cleanupUser_trace_count s c u hu (inv.session_room c u hu)
      rw [hcount.1]
      have : countP (Part000.Emit.isUpdateUsersTo u.room)
          [Part000.Emit.message (.room roomB) "System"
             (n ++ " has joined " ++ roomB) true false false,
           Part000.broadcastUserList (Part000.joinH c n roomB col s).1 roomB] = 0 := by
        simp [Part000.broadcastUserList, Part000.Emit.isUpdateUsersTo, countP,
          Ne.symm hne]
      rw [this]

/-- Witness for C1: after `A` joins `general`, the membership facts hold,
and a further join of `gaming` moves `A` out of `general` with exactly one
`updateUsers` broadcast to `general`. -/
theorem connection_in_at_most_one_room_witness :
    ("general" : String) = "general" ∧
    ("A" ∈ Part000.roomMembers
        (Part000.joinH "A" "Alice2" "gaming" ""
          (Part000.stepE Part000.initState (.join "A" "Alice" "general" "")).1).1 "gaming" ∧
     "A" ∉ Part000.roomMembers
        (Part000.joinH "A" "Alice2" "gaming" ""
          (Part000.stepE Part000.initState (.join "A" "Alice" "general" "")).1).1 "general" ∧
     countP (Part000.Emit.isUpdateUsersTo "general")
        (Part000.joinH "A" "Alice2" "gaming" ""
          (Part000.stepE Part000.initState (.join "A" "Alice" "general" "")).1).2.1 = 1) :=
  ⟨connection_in_at_most_one_room.1
      (Part000.stepE Part000.initState (.join "A" "Alice" "general" "")).1
      (Part000.Reachable.step Part000.initState (.join "A" "Alice" "general" "")
        Part000.Reachable.init)
      "A" "general" "general" ⟨["A"], 1⟩ ⟨["A"], 1⟩
      (by decide) (by decide) (by decide) (by decide),
   connection_in_at_most_one_room.2
      (Part000.stepE Part000.initState (.join "A" "Alice" "general" "")).1
      "A" "Alice2" "gaming" "" ⟨"A", "Alice", "general", "#4361ee", "online"⟩
      (Part000.Reachable.step Part000.initState (.join "A" "Alice" "general" "")
        Part000.Reachable.init)
      (by decide) (by decide) (by decide) (by decide) (by decide)⟩

/-- C2: in every reachable part_000 state, every cataloged room's
`userCount` counter equals the length of its duplicate-free membership
list — the counter recomputed by `updateRoomUserCount` after each mutation
never drifts from the membership set's cardinality. -/
theorem room_count_equals_membership :
    ∀ s, Part000.Reachable s → ∀ r rs, jget s.rooms r = some rs →
      rs.userCount = rs.users.length ∧ rs.users.Nodup := by
  intro s h r rs hh
  have inv := Part000.inv_reachable s h
  exact ⟨inv.count_eq r rs hh, inv.mem_nodup r rs hh⟩

/-- Witness for C2: after one join, `general` holds one member and its
counter reads `1`. -/
theorem room_count_equals_membership_witness :
    jget (Part000.stepE Part000.initState (.join "A" "Alice" "general" "")).1.rooms
      "general" = some ⟨["A"], 1⟩ ∧
    (⟨["A"], 1⟩ : Part000.RoomState).userCount =
      (⟨["A"], 1⟩ : Part000.RoomState).users.length ∧
    (⟨["A"], 1⟩ : Part000.RoomState).users.Nodup :=
  ⟨by decide,
   room_count_equals_membership
      (Part000.stepE Part000.initState (.join "A" "Alice" "general" "")).1
      (Part000.Reachable.step Part000.initState (.join "A" "Alice" "general" "")
        Part000.Reachable.init)
      "general" ⟨["A"], 1⟩ (by decide)⟩

/-- C10: a `join` never removes any transport-group entry (the source
never calls `socket.leave`), so after a room change `A` to `B` the
connection is out of `A`'s membership list but still inside `A`'s
transport broadcast group and still receives events emitted to room `A`. -/
theorem room_change_keeps_old_broadcast_group :
    (∀ (s : Part000.ServerState) (c n room col : String) (g : ConnId × String),
        g ∈ s.groups → g ∈ (Part000.joinH c n room col s).1.groups) ∧
    (∀ (s : Part000.ServerState) (c n1 n2 col1 col2 A B : String),
        ¬ n1 = "" → ¬ n2 = "" → ¬ A = "" → ¬ B = "" → A ≠ B →
        (jget s.rooms A).isSome → (jget s.rooms B).isSome →
        (c, A) ∈ (Part000.joinH c n2 B col2 (Part000.joinH c n1 A col1 s).1).1.groups ∧
        (c, B) ∈ (Part000.joinH c n2 B col2 (Part000.joinH c n1 A col1 s).1).1.groups ∧
        c ∉ Part000.roomMembers
            (Part000.joinH c n2 B col2 (Part000.joinH c n1 A col1 s).1).1 A ∧
        c ∈ Part000.roomMembers
            (Part000.joinH c n2 B col2 (Part000.joinH c n1 A col1 s).1).1 B ∧
        Part000.receives (Part000.joinH c n2 B col2 (Part000.joinH c n1 A col1 s).1).1
          (.room A) c = true) := by
  have hmono : ∀ (s : Part000.ServerState) (c n room col : String) (g : ConnId × String),
      g ∈ s.groups → g ∈ (Part000.joinH c n room col s).1.groups := by
    intro s c n room col g hg
    by_cases hvalid : n = "" ∨ room = "" ∨ (jget s.rooms room).isNone
    · simp only [Part000.joinH, if_pos hvalid]
      exact hg
    · push_neg at hvalid
      obtain ⟨hn, hb, hc⟩ := hvalid
      have hcat : (jget s.rooms room).isNone = false := Bool.eq_false_iff.mpr hc
      have hgr := (Part000.joinH_facts s c n room col hn hb hcat).2.1
      rw [hgr]
      exact Part000.insertGroup_mono _ _ _ hg
  refine ⟨hmono, ?_⟩
  intro s c n1 n2 col1 col2 A B hn1 hn2 hA hB hAB hcatA hcatB
  have hcatA2 : (jget s.rooms A).isNone = false := by
    rcases ho : jget s.rooms A with _ | r
    · rw [ho] at hcatA; cases hcatA
    · rfl
  obtain ⟨F1u, F1g, F1k, F1m⟩ := Part000.joinH_facts s c n1 A col1 hn1 hA hcatA2
  have hcatB1 : (jget (Part000.joinH c n1 A col1 s).1.rooms B).isSome :=
    Part000.jget_isSome_of_jkeys_eq _ s.rooms _ F1k hcatB
  have hcatB2 : (jget (Part000.joinH c n1 A col1 s).1.rooms B).isNone = false := by
    rcases ho : jget (Part000.joinH c n1 A col1 s).1.rooms B with _ | r
    · rw [ho] at hcatB1; cases hcatB1
    · rfl
  obtain ⟨F2u, F2g, F2k, F2m⟩ :=
    Part000.joinH_facts (Part000.joinH c n1 A col1 s).1 c n2 B col2 hn2 hB hcatB2
  have hmemA : (c, A) ∈ (Part000.joinH c n2 B col2 (Part000.joinH c n1 A col1 s).1).1.groups := by
    rw [F2g]
    apply Part000.insertGroup_mono
    rw [F1g]
    exact Part000.insertGroup_mem_self s.groups (c, A)
  refine ⟨hmemA, ?_, ?_, F2m, ?_⟩
  · rw [F2g]
    exact Part000.insertGroup_mem_self _ (c, B)
  · -- c is no longer a member of A after the room change
    have hmA : (jget (Part000.joinH c n1 A col1 s).1.rooms A).isSome :=
      Part000.jget_isSome_of_jkeys_eq _ s.rooms _ F1k hcatA
    obtain ⟨rA1, hrA1⟩ := Option.isSome_iff_exists.1 hmA
    have hclean := Part000.cleanupUser_fst (Part000.joinH c n1 A col1 s).1 c _ F1u
    have hcr : jget (Part000.cleanupUser c (Part000.joinH c n1 A col1 s).1).1.rooms A =
        some ⟨rA1.users.filter (· ≠ c), (rA1.users.filter (· ≠ c)).length⟩ := by
      rw [hclean]
      simp only [hrA1]
      rw [jget_jset_self]
    have hsomeB : (jget (Part000.cleanupUser c (Part000.joinH c n1 A col1 s).1).1.rooms B).isSome := by
      apply Part000.jget_isSome_of_jkeys_eq _ (Part000.joinH c n1 A col1 s).1.rooms _
        (Part000.cleanupUser_rooms_jkeys _ c)
      exact hcatB1
    obtain ⟨rB1, hrB1⟩ := Option.isSome_iff_exists.1 hsomeB
    rw [Part000.joinH_fst (Part000.joinH c n1 A col1 s).1 c n2 B col2 rB1 hn2 hB hcatB2 hrB1]
    simp only [Part000.roomMembers, jget_jset_ne _ _ _ _ (Ne.symm hAB), hcr]
    simp
  · simp only [Part000.receives]
    exact List.elem_eq_true_of_mem hmemA

/-- Witness for C10: from the initial state, `s1` joins `general` then
`gaming`; it is out of `general`'s membership but still in its broadcast
group, so an emission to room `general` still reaches it. -/
theorem room_change_keeps_old_broadcast_group_witness :
    ("s1", "general") ∈
      (Part000.joinH "s1" "Bob" "gaming" ""
        (Part000.joinH "s1" "Bob" "general" "" Part000.initState).1).1.groups ∧
    "s1" ∉ Part000.roomMembers
      (Part000.joinH "s1" "Bob" "gaming" ""
        (Part000.joinH "s1" "Bob" "general" "" Part000.initState).1).1 "general" ∧
    Part000.receives
      (Part000.joinH "s1" "Bob" "gaming" ""
        (Part000.joinH "s1" "Bob" "general" "" Part000.initState).1).1
      (.room "general") "s1" = true ∧
    ("x", "random") ∈
      (Part000.joinH "s1" "Bob" "general" ""
        { Part000.initState with groups := [("x", "random")] }).1.groups :=
  ⟨(room_change_keeps_old_broadcast_group.2 Part000.initState "s1" "Bob" "Bob" "" ""
      "general" "gaming" (by decide) (by decide) (by decide) (by decide) (by decide)
      (by decide) (by decide)).1,
   (room_change_keeps_old_broadcast_group.2 Part000.initState "s1" "Bob" "Bob" "" ""
      "general" "gaming" (by decide) (by decide) (by decide) (by decide) (by decide)
      (by decide) (by decide)).2.2.1,
   (room_change_keeps_old_broadcast_group.2 Part000.initState "s1" "Bob" "Bob" "" ""
      "general" "gaming" (by decide) (by decide) (by decide) (by decide) (by decide)
      (by decide) (by decide)).2.2.2.2,
   room_change_keeps_old_broadcast_group.1
      ({ Part000.initState with groups := [("x", "random")] }) "s1" "Bob" "general" ""
      ("x", "random") (by decide)⟩

end Mizme
